import Mathlib

/-!
# sts-operator: the StsConfig reconciler

A shallow embedding of `controllers/stsconfig_controller.go`:

* `interfacesToBitmask` (the port-mask deriver),
* `Reconcile` (render, decode, diff-and-apply, status aggregation), with the
  cluster API, the template engine, the decoder and the process environment
  passed in as `Env`, and every external call recorded in a trace of `Event`s,
* one query cycle of `query_tsyncd` (the RPC status poller).

Go `int` is 64 bits wide.  The three port masks are kept as their 64-bit
two's-complement bit patterns (a `Nat` below `2 ^ 64`); the other integers do
not overflow in the code modelled here and are `Int`.
-/

set_option autoImplicit false

namespace StsOperator

/-! ## Data model -/

/-- Modelled from the spec: the declaration of `stsv1alpha1.StsInterfaceSpec`
(package `api/v1alpha1`) is missing; these are the three fields the controller
reads.  `EthPort` is the physical port index (a shift count, never negative),
`SyncE` the sync-enable flag, `Mode` the port role. -/
structure StsInterfaceSpec where
  EthPort : Nat
  SyncE : Int
  Mode : String
deriving DecidableEq, Repr

/-- Modelled from the spec: `stsv1alpha1.StsConfigSpec`, the fields read by the controller. -/
structure StsConfigSpec where
  NodeSelector : List (String × String)
  Mode : String
  Interfaces : List StsInterfaceSpec
deriving DecidableEq, Repr

/-- Modelled from the spec: the declaration of `stsv1alpha1.TsyncStatus` is missing; these
are the fields of the literal at lines 285-288, the synchronization status and mode labels. -/
structure TsyncStatus where
  Status : String
  Mode : String
deriving DecidableEq, Repr

/-- Modelled from the spec: the declaration of `stsv1alpha1.GPSStatus` is missing; these are
the fields of the literal at lines 289-293, the last-known GPS timestamp, longitude and
latitude.  The two coordinates are only ever given the literal 0 here. -/
structure GPSStatus where
  Time : String
  Lon : Int
  Lat : Int
deriving DecidableEq, Repr

/-- Modelled from the spec: the declaration of `stsv1alpha1.STSNodeStatus` is missing; these
are the fields of the literal at lines 283-294, the per-node status snapshot. -/
structure STSNodeStatus where
  Name : String
  TsyncStatus : TsyncStatus
  GpsStatus : GPSStatus
deriving DecidableEq, Repr

/-- Modelled from the spec: the declaration of `stsv1alpha1.StsConfigStatus` is missing; it
holds the status list of a StsConfig, one `STSNodeStatus` per node. -/
structure StsConfigStatus where
  NodeStatus : List STSNodeStatus
deriving DecidableEq, Repr

/-- Modelled from the spec: the declaration of `stsv1alpha1.StsConfig` is missing; the
desired-state object with its name, its spec and its status. -/
structure StsConfig where
  Name : String
  Spec : StsConfigSpec
  Status : StsConfigStatus
deriving DecidableEq, Repr

/-- A cluster node (`v1.Node` of k8s.io/api); the controller reads its name only. -/
structure Node where
  Name : String
deriving DecidableEq, Repr

/-- The render context, `StsConfigTemplate` (lines 57-68).  The embedded
`*stsv1alpha1.StsConfig` pointer is `none` when nil. -/
structure StsConfigTemplate where
  StsConfig : Option StsConfig
  NodeName : String
  EnableGPS : Bool
  ServicePrefix : String
  SlavePortMask : Nat
  MasterPortMask : Nat
  SyncePortMask : Nat
  ProfileId : Int
  GpsPort : Int
  TsyncPort : Int
deriving DecidableEq, Repr

/-- The zero value `&StsConfigTemplate{}` of line 196. -/
def StsConfigTemplate.zero : StsConfigTemplate :=
  { StsConfig := none, NodeName := "", EnableGPS := false, ServicePrefix := "",
    SlavePortMask := 0, MasterPortMask := 0, SyncePortMask := 0,
    ProfileId := 0, GpsPort := 0, TsyncPort := 0 }

/-! ## Port-mask deriver (lines 116-133) -/

/-- The Go expression `1 << p` at type `int`: bits shifted past bit 63 are lost. -/
def shl1 (p : Nat) : Nat := (1 <<< p) % 2 ^ 64

/-- The body of the `for _, x := range interfaces` loop, lines 123-131. -/
def interfacesToBitmask.step (cfg : StsConfigTemplate) (x : StsInterfaceSpec) :
    StsConfigTemplate :=
  let cfg1 :=
    if x.SyncE = 1 then { cfg with SyncePortMask := cfg.SyncePortMask ||| shl1 x.EthPort }
    else cfg
  if x.Mode = "Master" then
    { cfg1 with MasterPortMask := cfg1.MasterPortMask ||| shl1 x.EthPort }
  else if x.Mode = "Slave" then
    { cfg1 with MasterPortMask := cfg1.MasterPortMask ||| shl1 x.EthPort }
  else cfg1

/-- The function `interfacesToBitmask`, lines 116-133: the three masks are cleared, then
every interface ORs its bits in. -/
def interfacesToBitmask (cfg : StsConfigTemplate) (interfaces : List StsInterfaceSpec) :
    StsConfigTemplate :=
  interfaces.foldl interfacesToBitmask.step
    { cfg with SlavePortMask := 0, MasterPortMask := 0, SyncePortMask := 0 }

/-! ## Errors, rendered objects and the cluster store -/

/-- An error value returned by an external call.  `IsNotFound` is `errors.IsNotFound`. -/
inductive Err where
  | notFound
  | failed (msg : String)
deriving DecidableEq, Repr

/-- The test `errors.IsNotFound(err)` of lines 163 and 186. -/
def Err.IsNotFound : Err → Bool
  | .notFound => true
  | .failed _ => false

/-- The lookup key `client.ObjectKey` (sigs.k8s.io/controller-runtime): namespace and name. -/
structure ObjectKey where
  Namespace : String
  Name : String
deriving DecidableEq, Repr

/-- Modelled from the spec: `unstructured.Unstructured` (k8s.io/apimachinery) is missing.  A
RenderedObject is "a generic, schema-less resource definition with a kind/group/version
identity and a name/namespace identity extracted from its own body"; besides that identity
it carries the opaque version token and the remaining fields of its body as path/value
pairs.  An empty `ResourceVersion` is an unset one. -/
structure Obj where
  GVK : String
  Namespace : String
  Name : String
  ResourceVersion : String
  Fields : List (String × String)
deriving DecidableEq, Repr

/-- The call `client.ObjectKeyFromObject(obj)` of line 262. -/
def ObjectKeyFromObject (obj : Obj) : ObjectKey :=
  { Namespace := obj.Namespace, Name := obj.Name }

/-- The call `obj.SetResourceVersion(v)` of line 271. -/
def Obj.SetResourceVersion (obj : Obj) (v : String) : Obj :=
  { obj with ResourceVersion := v }

/-- Modelled from the spec: `equality.Semantic.DeepDerivative` (k8s.io/apimachinery) is
missing.  "The rendered object's fields must all be present and equal in the observed object;
extra observed fields are ignored — a one-directional subset comparison, not full equality."
A string the rendered object leaves unset (empty) is not compared. -/
def DeepDerivative (rendered observed : Obj) : Bool :=
  (rendered.GVK == "" || rendered.GVK == observed.GVK) &&
  (rendered.Namespace == "" || rendered.Namespace == observed.Namespace) &&
  (rendered.Name == "" || rendered.Name == observed.Name) &&
  (rendered.ResourceVersion == "" || rendered.ResourceVersion == observed.ResourceVersion) &&
  rendered.Fields.all (fun kv => observed.Fields.contains kv)

/-- Whether a stored object is the one a lookup with this kind and key addresses. -/
def Obj.matches (gvk : String) (key : ObjectKey) (o : Obj) : Bool :=
  o.GVK == gvk && o.Namespace == key.Namespace && o.Name == key.Name

/-- Modelled from the spec: the cluster API is missing.  The cluster state is the list of
stored objects; this is the stored object of a kind and key, if there is one, which is what
a lookup that does not fail for a reason of its own answers from. -/
def clusterGet (cluster : List Obj) (gvk : String) (key : ObjectKey) : Option Obj :=
  cluster.find? (Obj.matches gvk key)

/-- Modelled from the spec: a successful `create(object)` stores the object as submitted. -/
def clusterCreate (cluster : List Obj) (obj : Obj) : List Obj :=
  cluster ++ [obj]

/-- Modelled from the spec: a successful `update(object)` replaces the stored object of the
same kind and key by the object as submitted. -/
def clusterUpdate (cluster : List Obj) (obj : Obj) : List Obj :=
  cluster.map (fun o => if Obj.matches obj.GVK (ObjectKeyFromObject obj) o then obj else o)

/-! ## The environment of a reconciliation pass -/

/-- Everything `Reconcile` obtains from outside: the results of the list queries, the template
asset, the template engine, the decoder, the process environment, and which lookups and
write calls the cluster API fails. -/
structure Env where
  /-- The result of `r.List(ctx, stsConfigList)`, line 161. -/
  listStsConfigs : Except Err (List StsConfig)
  /-- The result of `ioutil.ReadFile("/assets/sts-deployment.yaml")`, line 170. -/
  readFile : Except Err String
  /-- The error of `template.New("asset").Option("missingkey=error").Parse`, line 176. -/
  parseErr : String → Option Err
  /-- The result of `r.List(ctx, nodeList, client.MatchingLabels(...))`, line 184. -/
  listNodes : StsConfig → Except Err (List Node)
  /-- The function `os.Getenv`. -/
  getenv : String → String
  /-- The call `t.Execute(&buff, cfgTemplate)`: the rendered text or an error, line 236. -/
  execute : String → StsConfigTemplate → Except Err String
  /-- The call `decoder.Decode(&obj)` on one segment, lines 246-249. -/
  decode : String → Except Err Obj
  /-- The error of `r.Get(ctx, key, old)` against the given cluster state when the lookup
  fails for a reason of its own (a timeout, a refused request), whatever is stored. -/
  getErr : List Obj → String → ObjectKey → Option Err
  /-- The error of `r.Create(ctx, obj)` against the given cluster state, if it fails. -/
  createErr : List Obj → Obj → Option Err
  /-- The error of `r.Update(ctx, obj)` against the given cluster state, if it fails. -/
  updateErr : List Obj → Obj → Option Err
  /-- The error of `r.Status().Update(ctx, &stsConfig)`, if it fails. -/
  statusUpdateErr : StsConfig → Option Err

/-- The call `r.Get(ctx, key, old)` of line 263 with `old` of the rendered object's kind: the
error of a lookup that failed for a reason of its own, else not-found when nothing of that
kind and key is stored, else the stored object. -/
def clientGet (env : Env) (cluster : List Obj) (gvk : String) (key : ObjectKey) :
    Except Err Obj :=
  match env.getErr cluster gvk key with
  | some e => .error e
  | none =>
    match clusterGet cluster gvk key with
    | none => .error .notFound
    | some old => .ok old

/-- The external calls of a pass, in the order they are issued.  A write call carries its
outcome. -/
inductive Event where
  | listStsConfigs
  | listNodes (cfg : String)
  | execute (ctx : StsConfigTemplate)
  | get (gvk : String) (key : ObjectKey)
  | create (obj : Obj) (err : Option Err)
  | update (obj : Obj) (err : Option Err)
  | statusUpdate (cfg : StsConfig) (err : Option Err)
  | goQueryTsyncd (host : String) (port : Int)
  | goQueryGpsd (host : String) (port : Int)
deriving DecidableEq, Repr

/-- The mutable state of a pass: the cluster, the slice `objects` declared at line 156 (one
for the whole invocation), and the calls issued so far. -/
structure PassState where
  cluster : List Obj
  objects : List Obj
  trace : List Event
deriving DecidableEq, Repr

/-! ## The apply step (lines 258-281) -/

/-- What one iteration of the apply loop leaves: the calls it issued, the cluster, the
object (which `SetResourceVersion` may have changed through its pointer), and the error
`Reconcile` returns if a write failed. -/
structure ApplyStep where
  calls : List Event
  cluster : List Obj
  obj : Obj
  err : Option Err
deriving DecidableEq, Repr

/-- The body of `for _, obj := range objects`, lines 259-280.  The create branch is taken on
any error of the lookup (`err != nil`), not only on not-found. -/
def applyObject (env : Env) (cluster : List Obj) (obj : Obj) : ApplyStep :=
  let gvk := obj.GVK
  let key := ObjectKeyFromObject obj
  match clientGet env cluster gvk key with
  | .error _ =>
    match env.createErr cluster obj with
    | some e => ⟨[.get gvk key, .create obj (some e)], cluster, obj, some e⟩
    | none => ⟨[.get gvk key, .create obj none], clusterCreate cluster obj, obj, none⟩
  | .ok old =>
    if !DeepDerivative obj old then
      let obj1 := obj.SetResourceVersion old.ResourceVersion
      match env.updateErr cluster obj1 with
      | some e => ⟨[.get gvk key, .update obj1 (some e)], cluster, obj1, some e⟩
      | none => ⟨[.get gvk key, .update obj1 none], clusterUpdate cluster obj1, obj1, none⟩
    else ⟨[.get gvk key], cluster, obj, none⟩

/-- What the apply loop leaves: calls, cluster, the objects of the slice as the loop left
them, and the error that ended it, if any. -/
structure ApplyResult where
  calls : List Event
  cluster : List Obj
  objects : List Obj
  err : Option Err
deriving DecidableEq, Repr

/-- The loop `for _, obj := range objects`, lines 258-281: it stops at the first failed
write. -/
def applyObjects (env : Env) : List Obj → List Obj → ApplyResult
  | cluster, [] => ⟨[], cluster, [], none⟩
  | cluster, obj :: rest =>
    let s := applyObject env cluster obj
    match s.err with
    | some e => ⟨s.calls, s.cluster, s.obj :: rest, some e⟩
    | none =>
      let r := applyObjects env s.cluster rest
      ⟨s.calls ++ r.calls, r.cluster, s.obj :: r.objects, r.err⟩

/-! ## Building the render context (lines 203-234) -/

/-- The value of a string of decimal digits, `none` if some character is not a digit. -/
def digitsValue (cs : List Char) : Option Nat :=
  cs.foldl (fun acc c =>
    match acc with
    | none => none
    | some n => if c.isDigit then some (n * 10 + (c.toNat - '0'.toNat)) else none) (some 0)

/-- The Go standard library function `strconv.Atoi` on a 64-bit platform, as its
documentation gives it: an optional sign followed by decimal digits.  The result is the
value and whether there was no error; a syntax error yields the value 0, a range error the
nearest representable value. -/
def Atoi (s : String) : Int × Bool :=
  match s.data with
  | [] => (0, false)
  | c :: rest =>
    let ds := if c = '-' ∨ c = '+' then rest else c :: rest
    if ds = [] then (0, false)
    else
      match digitsValue ds with
      | none => (0, false)
      | some n =>
        if c = '-' then
          if n > 2 ^ 63 then (-(2 ^ 63 : Int), false) else (-(n : Int), true)
        else
          if n ≥ 2 ^ 63 then ((2 ^ 63 : Int) - 1, false) else ((n : Int), true)

/-- Lines 213-220 (and 222-229): the port is set to its default; if the environment value is
longer than one byte, the result `i2` of `strconv.Atoi` is assigned, whether or not `Atoi`
returned an error. -/
def portFromEnv (dflt : Int) (value : String) : Int :=
  if value.utf8ByteSize > 1 then (Atoi value).1 else dflt

/-- Lines 203-211: `EnableGPS` is cleared, then mode selects profile id and GPS. -/
def setProfile (cfgTemplate : StsConfigTemplate) (mode : String) : StsConfigTemplate :=
  let c := { cfgTemplate with EnableGPS := false }
  if mode = "T-GM.8275.1" then { c with ProfileId := 2, EnableGPS := true }
  else if mode = "T-BC-8275.1" then { c with ProfileId := 1 }
  else if mode = "T-TSC.8275.1" then { c with ProfileId := 3 }
  else c

/-- Lines 203-234: the render context `cfgTemplate` as it is handed to `t.Execute`. -/
def buildContext (env : Env) (cfgTemplate : StsConfigTemplate) (stsConfig : StsConfig)
    (node : Node) : StsConfigTemplate :=
  let c1 := setProfile cfgTemplate stsConfig.Spec.Mode
  let c2 := { c1 with GpsPort := portFromEnv 2947 (env.getenv "GPS_PORT") }
  let c3 := { c2 with TsyncPort := portFromEnv 50051 (env.getenv "TSYNC_PORT") }
  let c4 := { c3 with NodeName := node.Name, StsConfig := some stsConfig,
                      ServicePrefix := node.Name }
  interfacesToBitmask c4 stsConfig.Spec.Interfaces

/-! ## Splitting and decoding (lines 242-256) -/

/-- Scan for the separator: `skip` counts the characters of a match still to be dropped,
`cur` is the current segment, reversed. -/
def splitDocs.go : Nat → List Char → List Char → List String
  | _, cur, [] => [String.mk cur.reverse]
  | skip + 1, cur, _ :: rest => splitDocs.go skip cur rest
  | 0, cur, c :: rest =>
    if (c :: rest).take 4 = ['\n', '-', '-', '-'] then
      String.mk cur.reverse :: splitDocs.go 3 [] rest
    else splitDocs.go 0 (c :: cur) rest

/-- Lines 242-243: `regexp.MustCompile("\n-{3}").Split(text, -1)`, the segments between the
occurrences of a newline followed by three dashes. -/
def splitDocs (text : String) : List String :=
  splitDocs.go 0 [] text.data

/-- The loop of lines 245-256: every segment is decoded and appended to `objects`; the
first decode error ends the pass. -/
def decodeObjects (env : Env) : List Obj → List String → Except Err (List Obj)
  | objects, [] => .ok objects
  | objects, objectDef :: rest =>
    match env.decode objectDef with
    | .error e => .error e
    | .ok obj => decodeObjects env (objects ++ [obj]) rest

/-! ## Reconcile (lines 153-312) -/

/-- The state after one iteration of the node loop, and the error if it returned. -/
structure NodeResult where
  st : PassState
  cfgTemplate : StsConfigTemplate
  statusList : StsConfigStatus
  err : Option Err
deriving DecidableEq, Repr

/-- The `STSNodeStatus` literal of lines 283-294. -/
def nodeStatusOf (node : Node) (stsConfig : StsConfig) : STSNodeStatus :=
  { Name := node.Name,
    TsyncStatus := { Status := "unknown", Mode := stsConfig.Spec.Mode },
    GpsStatus := { Time := "unknown", Lon := 0, Lat := 0 } }

/-- The body of `for _, node := range nodeList.Items`, lines 197-302.  `content` is the
template text; `objects` of the incoming state holds what earlier iterations appended.
Log lines are left out; the two `go` statements are recorded as calls. -/
def reconcileNode (env : Env) (content : String) (stsConfig : StsConfig) (st : PassState)
    (cfgTemplate : StsConfigTemplate) (statusList : StsConfigStatus) (node : Node) :
    NodeResult :=
  let cfg := buildContext env cfgTemplate stsConfig node
  let st1 : PassState := { st with trace := st.trace ++ [.execute cfg] }
  match env.execute content cfg with
  | .error e => ⟨st1, cfg, statusList, some e⟩
  | .ok text =>
    match decodeObjects env st.objects (splitDocs text) with
    | .error e => ⟨st1, cfg, statusList, some e⟩
    | .ok objects =>
      let a := applyObjects env st.cluster objects
      let st2 : PassState := ⟨a.cluster, a.objects, st1.trace ++ a.calls⟩
      match a.err with
      | some e => ⟨st2, cfg, statusList, some e⟩
      | none =>
        let statusList1 : StsConfigStatus :=
          { NodeStatus := statusList.NodeStatus ++ [nodeStatusOf node stsConfig] }
        let t1 := st2.trace ++ [.goQueryTsyncd (cfg.ServicePrefix ++ "-tsyncd") cfg.TsyncPort]
        let t2 :=
          if cfg.EnableGPS then t1 ++ [.goQueryGpsd (cfg.ServicePrefix ++ "-gpsd") cfg.GpsPort]
          else t1
        ⟨{ st2 with trace := t2 }, cfg, statusList1, none⟩

/-- The loop `for _, node := range nodeList.Items`, lines 197-302. -/
def nodesLoop (env : Env) (content : String) (stsConfig : StsConfig) :
    PassState → StsConfigTemplate → StsConfigStatus → List Node → NodeResult
  | st, cfgTemplate, statusList, [] => ⟨st, cfgTemplate, statusList, none⟩
  | st, cfgTemplate, statusList, node :: rest =>
    let r := reconcileNode env content stsConfig st cfgTemplate statusList node
    match r.err with
    | some _ => r
    | none => nodesLoop env content stsConfig r.st r.cfgTemplate r.statusList rest

/-- How an iteration of the loop over the StsConfig list ends: it goes on to the next
item, or `Reconcile` returns (with an error or with nil). -/
inductive Flow where
  | next
  | ret (err : Option Err)
deriving DecidableEq, Repr

/-- The body of `for _, stsConfig := range stsConfigList.Items`, lines 181-309. -/
def reconcileConfig (env : Env) (content : String) (st : PassState) (stsConfig : StsConfig) :
    PassState × Flow :=
  let st1 : PassState := { st with trace := st.trace ++ [.listNodes stsConfig.Name] }
  match env.listNodes stsConfig with
  | .error e => if e.IsNotFound then (st1, .ret none) else (st1, .ret (some e))
  | .ok nodes =>
    let r := nodesLoop env content stsConfig st1 StsConfigTemplate.zero ⟨[]⟩ nodes
    match r.err with
    | some e => (r.st, .ret (some e))
    | none =>
      let stsConfig1 : StsConfig := { stsConfig with Status := r.statusList }
      let e := env.statusUpdateErr stsConfig1
      let st2 : PassState := { r.st with trace := r.st.trace ++ [.statusUpdate stsConfig1 e] }
      match e with
      | some err => (st2, .ret (some err))
      | none => (st2, .next)

/-- What `Reconcile` leaves: the final state and the returned error (`none` for nil). -/
structure PassResult where
  st : PassState
  err : Option Err
deriving DecidableEq, Repr

/-- The loop `for _, stsConfig := range stsConfigList.Items`, lines 181-311. -/
def configsLoop (env : Env) (content : String) : PassState → List StsConfig → PassResult
  | st, [] => ⟨st, none⟩
  | st, stsConfig :: rest =>
    match reconcileConfig env content st stsConfig with
    | (st1, .ret err) => ⟨st1, err⟩
    | (st1, .next) => configsLoop env content st1 rest

/-- The function `Reconcile`, lines 153-312, started on a cluster state. -/
def Reconcile (env : Env) (cluster : List Obj) : PassResult :=
  let st0 : PassState := ⟨cluster, [], [.listStsConfigs]⟩
  match env.listStsConfigs with
  | .error e => if e.IsNotFound then ⟨st0, none⟩ else ⟨st0, some e⟩
  | .ok items =>
    match env.readFile with
    | .error e => ⟨st0, some e⟩
    | .ok content =>
      match env.parseErr content with
      | some e => ⟨st0, some e⟩
      | none => configsLoop env content st0 items

/-! ## The RPC status poller (lines 331-369) -/

/-- Modelled from the spec: the generated package `grpc/tsynctl` is missing; each of the
three unary calls returns "a single text message field". -/
structure Reply where
  Message : String
deriving DecidableEq, Repr

/-- What a query cycle does, in order. -/
inductive PollEvent where
  | call (method : String)
  | print (line : String)
  | cancel
  | sleep (seconds : Nat)
  | nilDereference
deriving DecidableEq, Repr

/-- The two results `r, err` of one unary call: the reply pointer (`none` for nil) and the
error (`none` for nil). -/
structure CallResult where
  reply : Option Reply
  err : Option Err
deriving DecidableEq, Repr

/-- A failed call: an error and a nil reply. -/
def CallResult.failure (e : Err) : CallResult := ⟨none, some e⟩

/-- A successful call. -/
def CallResult.success (msg : String) : CallResult := ⟨some ⟨msg⟩, none⟩

/-- One call and what follows it (lines 346-350, 352-357, 359-363): the call, the log line
if `err != nil`, then the print of `r.Message`, which reads through the reply pointer.  The
second component is false when that read faulted. -/
def query_tsyncd.one (method errLabel label : String) (res : CallResult) : List PollEvent × Bool :=
  let t1 := [PollEvent.call method]
  let t2 := if res.err.isSome then t1 ++ [.print errLabel] else t1
  match res.reply with
  | none => (t2 ++ [.nilDereference], false)
  | some r => (t2 ++ [.print (label ++ r.Message)], true)

/-- One iteration of the `for` loop of `query_tsyncd`, lines 344-367.  The second component
is true when the iteration reached its end, after `time.Sleep(30 * time.Second)`. -/
def query_tsyncd.cycle (getStatus getMode getTime : CallResult) : List PollEvent × Bool :=
  let s1 := query_tsyncd.one "GetStatus" "could not get status" "Status: " getStatus
  if !s1.2 then (s1.1, false)
  else
    let s2 := query_tsyncd.one "GetMode" "could not get mode" "Mode: " getMode
    if !s2.2 then (s1.1 ++ s2.1, false)
    else
      let s3 := query_tsyncd.one "GetTime" "could not get time" "Time: " getTime
      if !s3.2 then (s1.1 ++ s2.1 ++ s3.1, false)
      else (s1.1 ++ s2.1 ++ s3.1 ++ [.cancel, .sleep 30], true)

/-- The `for` loop of `query_tsyncd` (lines 343-368) run on the call results of successive
iterations: the events of all iterations up to a fault, and whether every one of them
reached its end. -/
def query_tsyncd.cycles : List (CallResult × CallResult × CallResult) → List PollEvent × Bool
  | [] => ([], true)
  | (s, m, t) :: rest =>
    let c := query_tsyncd.cycle s m t
    if !c.2 then (c.1, false)
    else
      let r := query_tsyncd.cycles rest
      (c.1 ++ r.1, r.2)

/-! ## Reading a trace -/

/-- The objects looked up by the apply step, in order: kind and key of every `Get`. -/
def lookups : List Event → List (String × ObjectKey)
  | [] => []
  | .get gvk key :: rest => (gvk, key) :: lookups rest
  | _ :: rest => lookups rest

/-- Whether a call is a create or an update. -/
def Event.isWrite : Event → Bool
  | .create _ _ => true
  | .update _ _ => true
  | _ => false

/-- The error of rendering one node: that of template execution, else the first decode
error among the segments of the rendered text. -/
def renderErr (env : Env) (content : String) (ctx : StsConfigTemplate) : Option Err :=
  match env.execute content ctx with
  | .error e => some e
  | .ok text => ((splitDocs text).map env.decode).findSome? (fun r =>
      match r with
      | .error e => some e
      | .ok _ => none)

/-- The error an external call ended with, if it failed: a rejected create, update or status
update, or a render (template execution and decoding) that failed. -/
def Event.failure (env : Env) (content : String) : Event → Option Err
  | .create _ e => e
  | .update _ e => e
  | .statusUpdate _ e => e
  | .execute ctx => renderErr env content ctx
  | _ => none

/-- The error a loop iteration returned with, if any. -/
def Flow.err : Flow → Option Err
  | .next => none
  | .ret e => e

/-- The mode table as the specification words it: profile id 2 with GPS for the grandmaster
mode, 1 and 3 without GPS for the boundary-clock and slave-clock modes, and for any other
mode GPS disabled with the profile id at its prior value. -/
def ContextMatchesMode (mode : String) (prior : Int) (ctx : StsConfigTemplate) : Prop :=
  (mode = "T-GM.8275.1" → ctx.ProfileId = 2 ∧ ctx.EnableGPS = true) ∧
  (mode = "T-BC-8275.1" → ctx.ProfileId = 1 ∧ ctx.EnableGPS = false) ∧
  (mode = "T-TSC.8275.1" → ctx.ProfileId = 3 ∧ ctx.EnableGPS = false) ∧
  (mode ≠ "T-GM.8275.1" → mode ≠ "T-BC-8275.1" → mode ≠ "T-TSC.8275.1" →
    ctx.ProfileId = prior ∧ ctx.EnableGPS = false)

/-- No call of the trace failed. -/
def TraceClean (env : Env) (content : String) (t : List Event) : Prop :=
  ∀ ev ∈ t, ev.failure env content = none

/-- Either no call of the trace failed, or exactly the last one did and `err` is its error. -/
def TraceEndsAtFailure (env : Env) (content : String) (t : List Event) (err : Option Err) :
    Prop :=
  TraceClean env content t ∨
    ∃ t0 ev e, t = t0 ++ [ev] ∧ TraceClean env content t0 ∧
      ev.failure env content = some e ∧ err = some e

/-- The trace is clean when `err` is nil, and otherwise its last call is the one that failed
with `err`, all calls before it having succeeded. -/
def TraceFailsLast (env : Env) (content : String) (t : List Event) (err : Option Err) : Prop :=
  (err = none → TraceClean env content t) ∧
  (∀ e, err = some e → ∃ t0 ev, t = t0 ++ [ev] ∧ TraceClean env content t0 ∧
    ev.failure env content = some e)

/-- Whether a call is one of the apply step: a lookup, a create or an update. -/
def Event.isApply : Event → Bool
  | .get _ _ => true
  | .create _ _ => true
  | .update _ _ => true
  | _ => false

/-- Whether a call is the status update of a StsConfig. -/
def Event.isStatusUpdate : Event → Bool
  | .statusUpdate _ _ => true
  | _ => false

/-- The identity the apply step looks an object up by: its kind and its namespace/name. -/
def Obj.ident (o : Obj) : String × ObjectKey :=
  (o.GVK, ObjectKeyFromObject o)

/-- The lookup call the apply step issues for an object. -/
def Obj.lookup (o : Obj) : Event :=
  .get o.GVK (ObjectKeyFromObject o)

/-- The cluster is converged on the objects: each one is found and is derivative-equal to
what is stored. -/
def Converged (cluster : List Obj) (objs : List Obj) : Prop :=
  ∀ o ∈ objs, ∃ s, clusterGet cluster o.GVK (ObjectKeyFromObject o) = some s ∧
    DeepDerivative o s = true

/-- Rendered objects that share kind and namespace/name are the same object. -/
def IdentDeterminesObject (objs : List Obj) : Prop :=
  ∀ o1 ∈ objs, ∀ o2 ∈ objs, o1.ident = o2.ident → o1 = o2


/-! ## Port masks: helper lemmas -/

theorem testBit_shl1 (p i : Nat) :
    (shl1 p).testBit i = (decide (i < 64) && decide (p = i)) := by
  unfold shl1
  rw [Nat.one_shiftLeft, Nat.testBit_mod_two_pow, Nat.testBit_two_pow]

theorem step_SyncePortMask (c : StsConfigTemplate) (x : StsInterfaceSpec) :
    (interfacesToBitmask.step c x).SyncePortMask =
      if x.SyncE = 1 then c.SyncePortMask ||| shl1 x.EthPort else c.SyncePortMask := by
  unfold interfacesToBitmask.step
  by_cases h1 : x.SyncE = 1 <;> by_cases h2 : x.Mode = "Master" <;>
    by_cases h3 : x.Mode = "Slave" <;> simp [h1, h2, h3]

theorem step_MasterPortMask (c : StsConfigTemplate) (x : StsInterfaceSpec) :
    (interfacesToBitmask.step c x).MasterPortMask =
      if x.Mode = "Master" ∨ x.Mode = "Slave" then c.MasterPortMask ||| shl1 x.EthPort
      else c.MasterPortMask := by
  unfold interfacesToBitmask.step
  by_cases h1 : x.SyncE = 1 <;> by_cases h2 : x.Mode = "Master" <;>
    by_cases h3 : x.Mode = "Slave" <;> simp [h1, h2, h3]

theorem foldl_SyncePortMask_testBit (l : List StsInterfaceSpec) :
    ∀ (c : StsConfigTemplate) (i : Nat),
      (l.foldl interfacesToBitmask.step c).SyncePortMask.testBit i = true ↔
        (c.SyncePortMask.testBit i = true ∨
          (i < 64 ∧ ∃ x ∈ l, x.EthPort = i ∧ x.SyncE = 1)) := by
  induction l with
  | nil => intro c i; simp
  | cons x xs ih =>
    intro c i
    rw [List.foldl_cons, ih, step_SyncePortMask]
    by_cases h1 : x.SyncE = 1
    · simp only [h1, if_true, Nat.testBit_lor, Bool.or_eq_true, testBit_shl1,
        Bool.and_eq_true, decide_eq_true_eq, List.mem_cons]
      constructor
      · rintro ((h | ⟨h64, hp⟩) | ⟨h64, y, hy, hp, hs⟩)
        · exact Or.inl h
        · exact Or.inr ⟨h64, x, Or.inl rfl, hp, h1⟩
        · exact Or.inr ⟨h64, y, Or.inr hy, hp, hs⟩
      · rintro (h | ⟨h64, y, (rfl | hy), hp, hs⟩)
        · exact Or.inl (Or.inl h)
        · exact Or.inl (Or.inr ⟨h64, hp⟩)
        · exact Or.inr ⟨h64, y, hy, hp, hs⟩
    · simp only [h1, if_false, List.mem_cons]
      constructor
      · rintro (h | ⟨h64, y, hy, hp, hs⟩)
        · exact Or.inl h
        · exact Or.inr ⟨h64, y, Or.inr hy, hp, hs⟩
      · rintro (h | ⟨h64, y, (rfl | hy), hp, hs⟩)
        · exact Or.inl h
        · exact absurd hs h1
        · exact Or.inr ⟨h64, y, hy, hp, hs⟩

theorem foldl_MasterPortMask_testBit (l : List StsInterfaceSpec) :
    ∀ (c : StsConfigTemplate) (i : Nat),
      (l.foldl interfacesToBitmask.step c).MasterPortMask.testBit i = true ↔
        (c.MasterPortMask.testBit i = true ∨
          (i < 64 ∧ ∃ x ∈ l, x.EthPort = i ∧ (x.Mode = "Master" ∨ x.Mode = "Slave"))) := by
  induction l with
  | nil => intro c i; simp
  | cons x xs ih =>
    intro c i
    rw [List.foldl_cons, ih, step_MasterPortMask]
    by_cases h1 : x.Mode = "Master" ∨ x.Mode = "Slave"
    · simp only [h1, if_true, Nat.testBit_lor, Bool.or_eq_true, testBit_shl1,
        Bool.and_eq_true, decide_eq_true_eq, List.mem_cons]
      constructor
      · rintro ((h | ⟨h64, hp⟩) | ⟨h64, y, hy, hp, hs⟩)
        · exact Or.inl h
        · exact Or.inr ⟨h64, x, Or.inl rfl, hp, h1⟩
        · exact Or.inr ⟨h64, y, Or.inr hy, hp, hs⟩
      · rintro (h | ⟨h64, y, (rfl | hy), hp, hs⟩)
        · exact Or.inl (Or.inl h)
        · exact Or.inl (Or.inr ⟨h64, hp⟩)
        · exact Or.inr ⟨h64, y, hy, hp, hs⟩
    · simp only [h1, if_false, List.mem_cons]
      constructor
      · rintro (h | ⟨h64, y, hy, hp, hs⟩)
        · exact Or.inl h
        · exact Or.inr ⟨h64, y, Or.inr hy, hp, hs⟩
      · rintro (h | ⟨h64, y, (rfl | hy), hp, hs⟩)
        · exact Or.inl h
        · exact absurd hs h1
        · exact Or.inr ⟨h64, y, hy, hp, hs⟩

theorem SyncePortMask_testBit (cfg : StsConfigTemplate) (l : List StsInterfaceSpec) (i : Nat) :
    (interfacesToBitmask cfg l).SyncePortMask.testBit i = true ↔
      (i < 64 ∧ ∃ x ∈ l, x.EthPort = i ∧ x.SyncE = 1) := by
  unfold interfacesToBitmask
  rw [foldl_SyncePortMask_testBit]
  simp

theorem MasterPortMask_testBit (cfg : StsConfigTemplate) (l : List StsInterfaceSpec) (i : Nat) :
    (interfacesToBitmask cfg l).MasterPortMask.testBit i = true ↔
      (i < 64 ∧ ∃ x ∈ l, x.EthPort = i ∧ (x.Mode = "Master" ∨ x.Mode = "Slave")) := by
  unfold interfacesToBitmask
  rw [foldl_MasterPortMask_testBit]
  simp

theorem SyncePortMask_congr (cfg1 cfg2 : StsConfigTemplate) (l1 l2 : List StsInterfaceSpec)
    (h : ∀ x, x ∈ l1 ↔ x ∈ l2) :
    (interfacesToBitmask cfg1 l1).SyncePortMask = (interfacesToBitmask cfg2 l2).SyncePortMask := by
  apply Nat.eq_of_testBit_eq
  intro i
  rw [Bool.eq_iff_iff, SyncePortMask_testBit, SyncePortMask_testBit]
  simp only [h]

/-! ## C1, C2 -/

/-- C1: after `interfacesToBitmask`, bit `P` (for `P < 63`) of `SyncePortMask` is set exactly
when some entry of the list has `EthPort = P` and `SyncE = 1`; the mask is the same for every
permutation of the list and for every content of the context before the call. -/
theorem C1_sync_mask_bit (cfg : StsConfigTemplate) (l : List StsInterfaceSpec) :
    (∀ P : Nat, P < 63 →
      ((interfacesToBitmask cfg l).SyncePortMask.testBit P = true ↔
        ∃ x ∈ l, x.EthPort = P ∧ x.SyncE = 1)) ∧
    (∀ l2 : List StsInterfaceSpec, l.Perm l2 →
      (interfacesToBitmask cfg l2).SyncePortMask = (interfacesToBitmask cfg l).SyncePortMask) ∧
    (∀ cfg2 : StsConfigTemplate,
      (interfacesToBitmask cfg2 l).SyncePortMask = (interfacesToBitmask cfg l).SyncePortMask) := by
  refine ⟨?_, ?_, ?_⟩
  · intro P hP
    rw [SyncePortMask_testBit]
    constructor
    · rintro ⟨_, h⟩; exact h
    · intro h; exact ⟨by omega, h⟩
  · intro l2 hp
    exact SyncePortMask_congr cfg cfg l2 l (fun x => hp.symm.mem_iff)
  · intro cfg2
    exact SyncePortMask_congr cfg2 cfg l l (fun _ => Iff.rfl)

/-- C1 at a concrete list: port 2 is SyncE-enabled, port 5 is not, and swapping the two
entries leaves the mask unchanged. -/
theorem C1_sync_mask_bit_witness :
    ((interfacesToBitmask StsConfigTemplate.zero
          [⟨2, 1, "Master"⟩, ⟨5, 0, "Slave"⟩]).SyncePortMask.testBit 2 = true ↔
        ∃ x ∈ [(⟨2, 1, "Master"⟩ : StsInterfaceSpec), ⟨5, 0, "Slave"⟩],
          x.EthPort = 2 ∧ x.SyncE = 1) ∧
    (interfacesToBitmask StsConfigTemplate.zero
          [⟨5, 0, "Slave"⟩, ⟨2, 1, "Master"⟩]).SyncePortMask =
        (interfacesToBitmask StsConfigTemplate.zero
          [⟨2, 1, "Master"⟩, ⟨5, 0, "Slave"⟩]).SyncePortMask :=
  ⟨(C1_sync_mask_bit StsConfigTemplate.zero [⟨2, 1, "Master"⟩, ⟨5, 0, "Slave"⟩]).1 2
      (by decide),
   (C1_sync_mask_bit StsConfigTemplate.zero [⟨2, 1, "Master"⟩, ⟨5, 0, "Slave"⟩]).2.1
      [⟨5, 0, "Slave"⟩, ⟨2, 1, "Master"⟩] (List.Perm.swap _ _ _)⟩

/-- C2: after `interfacesToBitmask`, bit `P` (for `P < 63`) of the role mask `MasterPortMask`
is set exactly when some entry of the list has `EthPort = P` and `Mode` equal to `"Master"` or
`"Slave"`; entries with any other `Mode` contribute no bit. -/
theorem C2_role_mask_bit (cfg : StsConfigTemplate) (l : List StsInterfaceSpec)
    (P : Nat) (hP : P < 63) :
    (interfacesToBitmask cfg l).MasterPortMask.testBit P = true ↔
      ∃ x ∈ l, x.EthPort = P ∧ (x.Mode = "Master" ∨ x.Mode = "Slave") := by
  rw [MasterPortMask_testBit]
  constructor
  · rintro ⟨_, h⟩; exact h
  · intro h; exact ⟨by omega, h⟩

/-- C2 at a concrete list: the entry with mode `"Listener"` sets no bit. -/
theorem C2_role_mask_bit_witness :
    ((interfacesToBitmask StsConfigTemplate.zero
        [⟨3, 0, "Slave"⟩, ⟨4, 1, "Listener"⟩]).MasterPortMask.testBit 4 = true ↔
      ∃ x ∈ [(⟨3, 0, "Slave"⟩ : StsInterfaceSpec), ⟨4, 1, "Listener"⟩],
        x.EthPort = 4 ∧ (x.Mode = "Master" ∨ x.Mode = "Slave")) :=
  C2_role_mask_bit StsConfigTemplate.zero [⟨3, 0, "Slave"⟩, ⟨4, 1, "Listener"⟩] 4 (by decide)


/-! ## The render context: helper lemmas -/

theorem step_fields (c : StsConfigTemplate) (x : StsInterfaceSpec) :
    (interfacesToBitmask.step c x).ProfileId = c.ProfileId ∧
    (interfacesToBitmask.step c x).EnableGPS = c.EnableGPS ∧
    (interfacesToBitmask.step c x).StsConfig = c.StsConfig ∧
    (interfacesToBitmask.step c x).GpsPort = c.GpsPort ∧
    (interfacesToBitmask.step c x).TsyncPort = c.TsyncPort ∧
    (interfacesToBitmask.step c x).ServicePrefix = c.ServicePrefix ∧
    (interfacesToBitmask.step c x).NodeName = c.NodeName := by
  unfold interfacesToBitmask.step
  by_cases h1 : x.SyncE = 1 <;> by_cases h2 : x.Mode = "Master" <;>
    by_cases h3 : x.Mode = "Slave" <;> simp [h1, h2, h3]

theorem foldl_step_fields (l : List StsInterfaceSpec) :
    ∀ c : StsConfigTemplate,
      (l.foldl interfacesToBitmask.step c).ProfileId = c.ProfileId ∧
      (l.foldl interfacesToBitmask.step c).EnableGPS = c.EnableGPS ∧
      (l.foldl interfacesToBitmask.step c).StsConfig = c.StsConfig ∧
      (l.foldl interfacesToBitmask.step c).GpsPort = c.GpsPort ∧
      (l.foldl interfacesToBitmask.step c).TsyncPort = c.TsyncPort ∧
      (l.foldl interfacesToBitmask.step c).ServicePrefix = c.ServicePrefix ∧
      (l.foldl interfacesToBitmask.step c).NodeName = c.NodeName := by
  induction l with
  | nil => intro c; simp
  | cons x xs ih =>
    intro c
    rw [List.foldl_cons]
    obtain ⟨h1, h2, h3, h4, h5, h6, h7⟩ := ih (interfacesToBitmask.step c x)
    obtain ⟨g1, g2, g3, g4, g5, g6, g7⟩ := step_fields c x
    exact ⟨h1.trans g1, h2.trans g2, h3.trans g3, h4.trans g4, h5.trans g5, h6.trans g6,
      h7.trans g7⟩

theorem buildContext_fields (env : Env) (cfg : StsConfigTemplate) (c : StsConfig) (node : Node) :
    (buildContext env cfg c node).ProfileId = (setProfile cfg c.Spec.Mode).ProfileId ∧
    (buildContext env cfg c node).EnableGPS = (setProfile cfg c.Spec.Mode).EnableGPS ∧
    (buildContext env cfg c node).StsConfig = some c ∧
    (buildContext env cfg c node).GpsPort = portFromEnv 2947 (env.getenv "GPS_PORT") ∧
    (buildContext env cfg c node).TsyncPort = portFromEnv 50051 (env.getenv "TSYNC_PORT") ∧
    (buildContext env cfg c node).ServicePrefix = node.Name ∧
    (buildContext env cfg c node).NodeName = node.Name := by
  unfold buildContext interfacesToBitmask
  obtain ⟨h1, h2, h3, h4, h5, h6, h7⟩ := foldl_step_fields c.Spec.Interfaces
    { ({ ({ ({ setProfile cfg c.Spec.Mode with
                GpsPort := portFromEnv 2947 (env.getenv "GPS_PORT") } : StsConfigTemplate) with
              TsyncPort := portFromEnv 50051 (env.getenv "TSYNC_PORT") } : StsConfigTemplate) with
            NodeName := node.Name, StsConfig := some c, ServicePrefix := node.Name } :
          StsConfigTemplate) with
      SlavePortMask := 0, MasterPortMask := 0, SyncePortMask := 0 }
  exact ⟨h1, h2, h3, h4, h5, h6, h7⟩

theorem setProfile_matches (cfg : StsConfigTemplate) (mode : String) :
    ContextMatchesMode mode cfg.ProfileId (setProfile cfg mode) := by
  unfold ContextMatchesMode setProfile
  refine ⟨?_, ?_, ?_, ?_⟩
  · intro h; subst h; simp
  · intro h; subst h; simp
  · intro h; subst h; simp
  · intro h1 h2 h3; simp [h1, h2, h3]

theorem buildContext_matches (env : Env) (cfg : StsConfigTemplate) (c : StsConfig) (node : Node) :
    ContextMatchesMode c.Spec.Mode cfg.ProfileId (buildContext env cfg c node) := by
  obtain ⟨h1, h2, _⟩ := buildContext_fields env cfg c node
  have h := setProfile_matches cfg c.Spec.Mode
  unfold ContextMatchesMode at h ⊢
  rw [h1, h2]
  exact h

theorem buildContext_gps_iff (env : Env) (cfg : StsConfigTemplate) (c : StsConfig) (node : Node) :
    (buildContext env cfg c node).EnableGPS = true ↔ c.Spec.Mode = "T-GM.8275.1" := by
  obtain ⟨_, h2, _⟩ := buildContext_fields env cfg c node
  rw [h2]
  unfold setProfile
  by_cases h : c.Spec.Mode = "T-GM.8275.1"
  · simp [h]
  · by_cases h' : c.Spec.Mode = "T-BC-8275.1"
    · simp [h, h']
    · by_cases h'' : c.Spec.Mode = "T-TSC.8275.1" <;> simp [h, h', h'']


/-! ## Traces: a failed call ends the pass -/

theorem TraceClean.append {env : Env} {content : String} {t1 t2 : List Event}
    (h1 : TraceClean env content t1) (h2 : TraceClean env content t2) :
    TraceClean env content (t1 ++ t2) := by
  intro ev hev
  rcases List.mem_append.mp hev with h | h
  · exact h1 ev h
  · exact h2 ev h

theorem TraceClean.singleton {env : Env} {content : String} {ev : Event}
    (h : ev.failure env content = none) : TraceClean env content [ev] := by
  intro ev' hev
  rw [List.mem_singleton] at hev
  rw [hev]; exact h

theorem TraceEndsAtFailure.sealed {env : Env} {content : String} {t : List Event}
    {err : Option Err} (h : TraceEndsAtFailure env content t err)
    (t1 t2 : List Event) (ev : Event) (e : Err) (ht : t = t1 ++ ev :: t2)
    (hf : ev.failure env content = some e) : t2 = [] ∧ err = some e := by
  rcases h with hc | ⟨t0, ev0, e0, ht0, hc0, hf0, herr⟩
  · have : ev.failure env content = none := hc ev (by rw [ht]; simp)
    rw [this] at hf; cases hf
  · rcases List.eq_nil_or_concat t2 with h2 | ⟨t2', x, h2⟩
    · subst h2
      rw [ht0] at ht
      have h3 : t0 ++ [ev0] = t1 ++ [ev] := ht
      obtain ⟨_, h4⟩ := List.append_inj' h3 rfl
      have h5 : ev0 = ev := by simpa using h4
      subst h5
      rw [hf0] at hf
      cases hf
      exact ⟨rfl, herr⟩
    · subst h2
      rw [ht0] at ht
      have h3 : t0 ++ [ev0] = (t1 ++ ev :: t2') ++ [x] := by
        rw [ht]; simp
      obtain ⟨h4, _⟩ := List.append_inj' h3 rfl
      have : ev.failure env content = none := hc0 ev (by rw [h4]; simp)
      rw [this] at hf; cases hf

theorem clientGet_ok (env : Env) (cluster : List Obj) (gvk : String) (key : ObjectKey)
    (old : Obj) (h : clientGet env cluster gvk key = .ok old) :
    clusterGet cluster gvk key = some old := by
  unfold clientGet at h
  cases hge : env.getErr cluster gvk key with
  | some e => simp [hge] at h
  | none =>
    cases hg : clusterGet cluster gvk key with
    | none => simp [hge, hg] at h
    | some o =>
      simp only [hge, hg] at h
      cases h
      rfl

theorem clientGet_of_absent (env : Env) (cluster : List Obj) (gvk : String) (key : ObjectKey)
    (h : clusterGet cluster gvk key = none) :
    ∃ e, clientGet env cluster gvk key = .error e := by
  unfold clientGet
  cases hge : env.getErr cluster gvk key with
  | some e => exact ⟨e, rfl⟩
  | none => exact ⟨.notFound, by simp [h]⟩

theorem clientGet_reliable (env : Env) (cluster : List Obj) (gvk : String) (key : ObjectKey)
    (hget : env.getErr cluster gvk key = none) :
    clientGet env cluster gvk key =
      match clusterGet cluster gvk key with
      | none => .error .notFound
      | some old => .ok old := by
  unfold clientGet
  simp only [hget]

/-- The five ways one apply step can go. -/
theorem applyObject_cases (env : Env) (cluster : List Obj) (obj : Obj) :
    (∃ eg, clientGet env cluster obj.GVK (ObjectKeyFromObject obj) = .error eg ∧
      env.createErr cluster obj = none ∧
      applyObject env cluster obj =
        ⟨[.get obj.GVK (ObjectKeyFromObject obj), .create obj none],
          clusterCreate cluster obj, obj, none⟩) ∨
    (∃ eg e, clientGet env cluster obj.GVK (ObjectKeyFromObject obj) = .error eg ∧
      env.createErr cluster obj = some e ∧
      applyObject env cluster obj =
        ⟨[.get obj.GVK (ObjectKeyFromObject obj), .create obj (some e)], cluster, obj, some e⟩) ∨
    (∃ old, clientGet env cluster obj.GVK (ObjectKeyFromObject obj) = .ok old ∧
      DeepDerivative obj old = true ∧
      applyObject env cluster obj =
        ⟨[.get obj.GVK (ObjectKeyFromObject obj)], cluster, obj, none⟩) ∨
    (∃ old, clientGet env cluster obj.GVK (ObjectKeyFromObject obj) = .ok old ∧
      DeepDerivative obj old = false ∧
      env.updateErr cluster (obj.SetResourceVersion old.ResourceVersion) = none ∧
      applyObject env cluster obj =
        ⟨[.get obj.GVK (ObjectKeyFromObject obj),
            .update (obj.SetResourceVersion old.ResourceVersion) none],
          clusterUpdate cluster (obj.SetResourceVersion old.ResourceVersion),
          obj.SetResourceVersion old.ResourceVersion, none⟩) ∨
    (∃ old e, clientGet env cluster obj.GVK (ObjectKeyFromObject obj) = .ok old ∧
      DeepDerivative obj old = false ∧
      env.updateErr cluster (obj.SetResourceVersion old.ResourceVersion) = some e ∧
      applyObject env cluster obj =
        ⟨[.get obj.GVK (ObjectKeyFromObject obj),
            .update (obj.SetResourceVersion old.ResourceVersion) (some e)],
          cluster, obj.SetResourceVersion old.ResourceVersion, some e⟩) := by
  unfold applyObject
  cases hg : clientGet env cluster obj.GVK (ObjectKeyFromObject obj) with
  | error eg =>
    cases hc : env.createErr cluster obj with
    | none => simp only [hg, hc]; exact Or.inl ⟨eg, rfl, trivial, trivial⟩
    | some e0 => simp [hg, hc]
  | ok old =>
    by_cases hd : DeepDerivative obj old = true
    · simp [hg, hd]
    · simp only [Bool.not_eq_true] at hd
      cases hu : env.updateErr cluster (obj.SetResourceVersion old.ResourceVersion) with
      | none => simp [hg, hd, hu]
      | some e0 => simp [hg, hd, hu]

/-- The five ways one apply step can go when the lookup does not fail for a reason of its
own: it then fails exactly when nothing is stored. -/
theorem applyObject_cases_reliable (env : Env) (cluster : List Obj) (obj : Obj)
    (hget : env.getErr cluster obj.GVK (ObjectKeyFromObject obj) = none) :
    (clusterGet cluster obj.GVK (ObjectKeyFromObject obj) = none ∧
      env.createErr cluster obj = none ∧
      applyObject env cluster obj =
        ⟨[.get obj.GVK (ObjectKeyFromObject obj), .create obj none],
          clusterCreate cluster obj, obj, none⟩) ∨
    (∃ e, clusterGet cluster obj.GVK (ObjectKeyFromObject obj) = none ∧
      env.createErr cluster obj = some e ∧
      applyObject env cluster obj =
        ⟨[.get obj.GVK (ObjectKeyFromObject obj), .create obj (some e)], cluster, obj, some e⟩) ∨
    (∃ old, clusterGet cluster obj.GVK (ObjectKeyFromObject obj) = some old ∧
      DeepDerivative obj old = true ∧
      applyObject env cluster obj =
        ⟨[.get obj.GVK (ObjectKeyFromObject obj)], cluster, obj, none⟩) ∨
    (∃ old, clusterGet cluster obj.GVK (ObjectKeyFromObject obj) = some old ∧
      DeepDerivative obj old = false ∧
      env.updateErr cluster (obj.SetResourceVersion old.ResourceVersion) = none ∧
      applyObject env cluster obj =
        ⟨[.get obj.GVK (ObjectKeyFromObject obj),
            .update (obj.SetResourceVersion old.ResourceVersion) none],
          clusterUpdate cluster (obj.SetResourceVersion old.ResourceVersion),
          obj.SetResourceVersion old.ResourceVersion, none⟩) ∨
    (∃ old e, clusterGet cluster obj.GVK (ObjectKeyFromObject obj) = some old ∧
      DeepDerivative obj old = false ∧
      env.updateErr cluster (obj.SetResourceVersion old.ResourceVersion) = some e ∧
      applyObject env cluster obj =
        ⟨[.get obj.GVK (ObjectKeyFromObject obj),
            .update (obj.SetResourceVersion old.ResourceVersion) (some e)],
          cluster, obj.SetResourceVersion old.ResourceVersion, some e⟩) := by
  have hrel := clientGet_reliable env cluster obj.GVK (ObjectKeyFromObject obj) hget
  rcases applyObject_cases env cluster obj with ⟨eg, hg, hc, h⟩ | ⟨eg, e, hg, hc, h⟩ |
    ⟨old, hg, hd, h⟩ | ⟨old, hg, hd, hu, h⟩ | ⟨old, e, hg, hd, hu, h⟩
  · cases hcg : clusterGet cluster obj.GVK (ObjectKeyFromObject obj) with
    | none => exact Or.inl ⟨rfl, hc, h⟩
    | some o => rw [hrel, hcg] at hg; cases hg
  · cases hcg : clusterGet cluster obj.GVK (ObjectKeyFromObject obj) with
    | none => exact Or.inr (Or.inl ⟨e, rfl, hc, h⟩)
    | some o => rw [hrel, hcg] at hg; cases hg
  · exact Or.inr (Or.inr (Or.inl ⟨old, clientGet_ok env _ _ _ old hg, hd, h⟩))
  · exact Or.inr (Or.inr (Or.inr (Or.inl ⟨old, clientGet_ok env _ _ _ old hg, hd, hu, h⟩)))
  · exact Or.inr (Or.inr (Or.inr (Or.inr ⟨old, e, clientGet_ok env _ _ _ old hg, hd, hu, h⟩)))

/-- The calls of one apply step: clean when it succeeds, ending at the failed write when
it fails. -/
theorem applyObject_calls (env : Env) (content : String) (cluster : List Obj) (obj : Obj) :
    ((applyObject env cluster obj).err = none →
      TraceClean env content (applyObject env cluster obj).calls) ∧
    (∀ e, (applyObject env cluster obj).err = some e →
      ∃ c0 ev, (applyObject env cluster obj).calls = c0 ++ [ev] ∧
        TraceClean env content c0 ∧ ev.failure env content = some e) := by
  rcases applyObject_cases env cluster obj with ⟨eg, _, _, h⟩ | ⟨eg, e0, _, _, h⟩ |
    ⟨old, _, _, h⟩ | ⟨old, _, _, _, h⟩ | ⟨old, e0, _, _, _, h⟩ <;> rw [h]
  · refine ⟨fun _ => ?_, fun e he => (by cases he)⟩
    intro ev hev
    simp only [List.mem_cons, List.mem_singleton, List.not_mem_nil, or_false] at hev
    rcases hev with rfl | rfl <;> rfl
  · refine ⟨fun he => (by cases he), fun e he => ?_⟩
    cases he
    exact ⟨[.get obj.GVK (ObjectKeyFromObject obj)], .create obj (some e0), rfl,
      TraceClean.singleton rfl, rfl⟩
  · refine ⟨fun _ => TraceClean.singleton rfl, fun e he => (by cases he)⟩
  · refine ⟨fun _ => ?_, fun e he => (by cases he)⟩
    intro ev hev
    simp only [List.mem_cons, List.mem_singleton, List.not_mem_nil, or_false] at hev
    rcases hev with rfl | rfl <;> rfl
  · refine ⟨fun he => (by cases he), fun e he => ?_⟩
    cases he
    exact ⟨[.get obj.GVK (ObjectKeyFromObject obj)],
      .update (obj.SetResourceVersion old.ResourceVersion) (some e0), rfl,
      TraceClean.singleton rfl, rfl⟩

theorem applyObject_failsLast (env : Env) (content : String) (cluster : List Obj) (obj : Obj) :
    TraceFailsLast env content (applyObject env cluster obj).calls
      (applyObject env cluster obj).err :=
  applyObject_calls env content cluster obj

theorem TraceFailsLast.prepend {env : Env} {content : String} {t1 t2 : List Event}
    {err : Option Err} (h1 : TraceClean env content t1) (h2 : TraceFailsLast env content t2 err) :
    TraceFailsLast env content (t1 ++ t2) err := by
  refine ⟨fun h => h1.append (h2.1 h), fun e h => ?_⟩
  obtain ⟨t0, ev, ht, hc, hf⟩ := h2.2 e h
  exact ⟨t1 ++ t0, ev, by rw [ht, List.append_assoc], h1.append hc, hf⟩

theorem TraceFailsLast.ends {env : Env} {content : String} {t : List Event}
    {err : Option Err} (h : TraceFailsLast env content t err) :
    TraceEndsAtFailure env content t err := by
  cases herr : err with
  | none => exact Or.inl (h.1 herr)
  | some e =>
    obtain ⟨t0, ev, ht, hc, hf⟩ := h.2 e herr
    exact Or.inr ⟨t0, ev, e, ht, hc, hf, rfl⟩

theorem applyObjects_failsLast (env : Env) (content : String) (objs : List Obj) :
    ∀ cluster : List Obj,
      TraceFailsLast env content (applyObjects env cluster objs).calls
        (applyObjects env cluster objs).err := by
  induction objs with
  | nil =>
    intro cluster
    refine ⟨fun _ => ?_, fun e h => ?_⟩
    · intro ev hev; simp [applyObjects] at hev
    · simp [applyObjects] at h
  | cons obj rest ih =>
    intro cluster
    have hs := applyObject_failsLast env content cluster obj
    cases herr : (applyObject env cluster obj).err with
    | some e =>
      simp only [applyObjects, herr]
      rw [herr] at hs
      exact hs
    | none =>
      simp only [applyObjects, herr]
      exact TraceFailsLast.prepend (hs.1 herr) (ih _)

theorem decodeObjects_error (env : Env) (segs : List String) :
    ∀ (objects : List Obj) (e : Err), decodeObjects env objects segs = .error e →
      (segs.map env.decode).findSome? (fun r =>
        match r with
        | .error e => some e
        | .ok _ => none) = some e := by
  induction segs with
  | nil => intro objects e h; simp [decodeObjects] at h
  | cons s rest ih =>
    intro objects e h
    cases hd : env.decode s with
    | error e0 =>
      simp only [decodeObjects, hd] at h
      cases h
      simp [List.findSome?, hd]
    | ok obj =>
      simp only [decodeObjects, hd] at h
      simp only [List.map_cons, List.findSome?, hd]
      exact ih _ _ h

theorem decodeObjects_ok (env : Env) (segs : List String) :
    ∀ (objects r : List Obj), decodeObjects env objects segs = .ok r →
      (segs.map env.decode).findSome? (fun r =>
        match r with
        | .error e => some e
        | .ok _ => none) = none := by
  induction segs with
  | nil => intro objects r _; simp
  | cons s rest ih =>
    intro objects r h
    cases hd : env.decode s with
    | error e0 => simp only [decodeObjects, hd] at h; cases h
    | ok obj =>
      simp only [decodeObjects, hd] at h
      simp only [List.map_cons, List.findSome?, hd]
      exact ih _ _ h

theorem reconcileNode_failsLast (env : Env) (content : String) (stsConfig : StsConfig)
    (st : PassState) (cfgTemplate : StsConfigTemplate) (statusList : StsConfigStatus)
    (node : Node) (hst : TraceClean env content st.trace) :
    TraceFailsLast env content
      (reconcileNode env content stsConfig st cfgTemplate statusList node).st.trace
      (reconcileNode env content stsConfig st cfgTemplate statusList node).err := by
  unfold reconcileNode
  cases hx : env.execute content (buildContext env cfgTemplate stsConfig node) with
  | error e0 =>
    simp only [hx]
    refine ⟨fun h => (by cases h), fun e h => ?_⟩
    cases h
    exact ⟨st.trace, _, rfl, hst, by simp [Event.failure, renderErr, hx]⟩
  | ok text =>
    cases hd : decodeObjects env st.objects (splitDocs text) with
    | error e0 =>
      simp only [hx, hd]
      refine ⟨fun h => (by cases h), fun e h => ?_⟩
      cases h
      refine ⟨st.trace, _, rfl, hst, ?_⟩
      simp only [Event.failure, renderErr, hx]
      exact decodeObjects_error env _ _ _ hd
    | ok objects =>
      have hexec : TraceClean env content
          (st.trace ++ [Event.execute (buildContext env cfgTemplate stsConfig node)]) := by
        refine hst.append (TraceClean.singleton ?_)
        simp only [Event.failure, renderErr, hx]
        exact decodeObjects_ok env _ _ _ hd
      have ha := applyObjects_failsLast env content objects st.cluster
      cases herr : (applyObjects env st.cluster objects).err with
      | some e0 =>
        simp only [hx, hd, herr]
        rw [herr] at ha
        exact TraceFailsLast.prepend hexec ha
      | none =>
        simp only [hx, hd, herr]
        refine ⟨fun _ => ?_, fun e h => (by cases h)⟩
        have hc := hexec.append (ha.1 herr)
        by_cases hg : (buildContext env cfgTemplate stsConfig node).EnableGPS = true
        · rw [if_pos hg]
          refine (hc.append (TraceClean.singleton ?_)).append (TraceClean.singleton ?_) <;> rfl
        · rw [if_neg hg]
          refine hc.append (TraceClean.singleton ?_)
          rfl

theorem nodesLoop_failsLast (env : Env) (content : String) (stsConfig : StsConfig)
    (nodes : List Node) :
    ∀ (st : PassState) (cfgTemplate : StsConfigTemplate) (statusList : StsConfigStatus),
      TraceClean env content st.trace →
      TraceFailsLast env content
        (nodesLoop env content stsConfig st cfgTemplate statusList nodes).st.trace
        (nodesLoop env content stsConfig st cfgTemplate statusList nodes).err := by
  induction nodes with
  | nil =>
    intro st cfgTemplate statusList hst
    exact ⟨fun _ => hst, fun e h => by simp [nodesLoop] at h⟩
  | cons node rest ih =>
    intro st cfgTemplate statusList hst
    have hn := reconcileNode_failsLast env content stsConfig st cfgTemplate statusList node hst
    cases herr : (reconcileNode env content stsConfig st cfgTemplate statusList node).err with
    | some e =>
      simp only [nodesLoop, herr]
      rw [herr] at hn
      exact hn
    | none =>
      simp only [nodesLoop, herr]
      exact ih _ _ _ (hn.1 herr)

theorem reconcileConfig_ends (env : Env) (content : String) (st : PassState)
    (stsConfig : StsConfig) (hst : TraceClean env content st.trace) :
    ((reconcileConfig env content st stsConfig).2 = Flow.next →
      TraceClean env content (reconcileConfig env content st stsConfig).1.trace) ∧
    TraceEndsAtFailure env content (reconcileConfig env content st stsConfig).1.trace
      (reconcileConfig env content st stsConfig).2.err := by
  have hst1 : TraceClean env content (st.trace ++ [Event.listNodes stsConfig.Name]) :=
    hst.append (TraceClean.singleton rfl)
  unfold reconcileConfig
  cases hl : env.listNodes stsConfig with
  | error e =>
    by_cases hnf : e.IsNotFound = true
    · simp only [hl, hnf, if_true]
      exact ⟨fun h => (by cases h), Or.inl hst1⟩
    · simp only [hl, hnf]
      exact ⟨fun h => (by simp at h), Or.inl hst1⟩
  | ok nodes =>
    have hn := nodesLoop_failsLast env content stsConfig nodes
      { st with trace := st.trace ++ [Event.listNodes stsConfig.Name] }
      StsConfigTemplate.zero ⟨[]⟩ hst1
    cases herr : (nodesLoop env content stsConfig
        { st with trace := st.trace ++ [Event.listNodes stsConfig.Name] }
        StsConfigTemplate.zero ⟨[]⟩ nodes).err with
    | some e =>
      simp only [hl, herr]
      rw [herr] at hn
      exact ⟨fun h => (by cases h), hn.ends⟩
    | none =>
      have hc := hn.1 herr
      cases hu : env.statusUpdateErr { stsConfig with Status := (nodesLoop env content stsConfig
          { st with trace := st.trace ++ [Event.listNodes stsConfig.Name] }
          StsConfigTemplate.zero ⟨[]⟩ nodes).statusList } with
      | some e =>
        simp only [hl, herr, hu]
        refine ⟨fun h => (by cases h), Or.inr ⟨_, _, e, rfl, hc, rfl, rfl⟩⟩
      | none =>
        simp only [hl, herr, hu]
        have hc2 := hc.append (TraceClean.singleton
          (show (Event.statusUpdate { stsConfig with Status := (nodesLoop env content stsConfig
            { st with trace := st.trace ++ [Event.listNodes stsConfig.Name] }
            StsConfigTemplate.zero ⟨[]⟩ nodes).statusList } none).failure env content = none
            from rfl))
        exact ⟨fun _ => hc2, Or.inl hc2⟩

theorem configsLoop_ends (env : Env) (content : String) (items : List StsConfig) :
    ∀ st : PassState, TraceClean env content st.trace →
      TraceEndsAtFailure env content (configsLoop env content st items).st.trace
        (configsLoop env content st items).err := by
  induction items with
  | nil => intro st hst; exact Or.inl hst
  | cons c rest ih =>
    intro st hst
    have hc := reconcileConfig_ends env content st c hst
    unfold configsLoop
    cases hr : reconcileConfig env content st c with
    | mk st1 flow =>
      rw [hr] at hc
      cases flow with
      | next => exact ih st1 (hc.1 rfl)
      | ret err => exact hc.2

/-- Every failed call of a pass (a rejected create, update or status update, a render that
failed) is the last call of the pass, and its error is what `Reconcile` returns. -/
theorem Reconcile_ends (env : Env) (cluster : List Obj) (content : String)
    (hc : env.readFile = .ok content) :
    TraceEndsAtFailure env content (Reconcile env cluster).st.trace
      (Reconcile env cluster).err := by
  have h0 : TraceClean env content [Event.listStsConfigs] := TraceClean.singleton rfl
  unfold Reconcile
  cases hl : env.listStsConfigs with
  | error e =>
    by_cases hnf : e.IsNotFound = true
    · simp only [hnf, if_true]; exact Or.inl h0
    · simp only [hnf]; exact Or.inl h0
  | ok items =>
    simp only [hc]
    cases hp : env.parseErr content with
    | some e => exact Or.inl h0
    | none => exact configsLoop_ends env content items _ h0


/-! ## C3: profile id and GPS from the mode -/

theorem reconcileNode_cfgTemplate (env : Env) (content : String) (stsConfig : StsConfig)
    (st : PassState) (cfgTemplate : StsConfigTemplate) (statusList : StsConfigStatus)
    (node : Node) :
    (reconcileNode env content stsConfig st cfgTemplate statusList node).cfgTemplate =
      buildContext env cfgTemplate stsConfig node := by
  unfold reconcileNode
  cases hx : env.execute content (buildContext env cfgTemplate stsConfig node) with
  | error e => simp only [hx]
  | ok text =>
    cases hd : decodeObjects env st.objects (splitDocs text) with
    | error e => simp only [hx, hd]
    | ok objects =>
      cases herr : (applyObjects env st.cluster objects).err with
      | some e => simp only [hx, hd, herr]
      | none => simp only [hx, hd, herr]

theorem applyObject_no_execute (env : Env) (cluster : List Obj) (obj : Obj) (ctx : StsConfigTemplate) :
    Event.execute ctx ∉ (applyObject env cluster obj).calls := by
  rcases applyObject_cases env cluster obj with ⟨_, _, _, h⟩ | ⟨_, e, _, _, h⟩ | ⟨old, _, _, h⟩ |
    ⟨old, _, _, _, h⟩ | ⟨old, e, _, _, _, h⟩ <;> rw [h] <;> simp

theorem applyObjects_no_execute (env : Env) (objs : List Obj) (ctx : StsConfigTemplate) :
    ∀ cluster : List Obj, Event.execute ctx ∉ (applyObjects env cluster objs).calls := by
  induction objs with
  | nil => intro cluster; simp [applyObjects]
  | cons obj rest ih =>
    intro cluster
    have h1 := applyObject_no_execute env cluster obj ctx
    cases herr : (applyObject env cluster obj).err with
    | some e => simpa only [applyObjects, herr] using h1
    | none =>
      simp only [applyObjects, herr, List.mem_append, not_or]
      exact ⟨h1, ih _⟩

theorem reconcileNode_execute (env : Env) (content : String) (stsConfig : StsConfig)
    (st : PassState) (cfgTemplate : StsConfigTemplate) (statusList : StsConfigStatus)
    (node : Node) (ctx : StsConfigTemplate)
    (h : Event.execute ctx ∈
      (reconcileNode env content stsConfig st cfgTemplate statusList node).st.trace) :
    Event.execute ctx ∈ st.trace ∨ ctx = buildContext env cfgTemplate stsConfig node := by
  unfold reconcileNode at h
  cases hx : env.execute content (buildContext env cfgTemplate stsConfig node) with
  | error e =>
    simp only [hx, List.mem_append, List.mem_singleton, Event.execute.injEq] at h
    exact h
  | ok text =>
    cases hd : decodeObjects env st.objects (splitDocs text) with
    | error e =>
      simp only [hx, hd, List.mem_append, List.mem_singleton, Event.execute.injEq] at h
      exact h
    | ok objects =>
      have hno := applyObjects_no_execute env objects ctx st.cluster
      cases herr : (applyObjects env st.cluster objects).err with
      | some e =>
        simp only [hx, hd, herr, List.mem_append, List.mem_singleton, Event.execute.injEq] at h
        rcases h with (h | h) | h
        · exact Or.inl h
        · exact Or.inr h
        · exact absurd h hno
      | none =>
        simp only [hx, hd, herr] at h
        by_cases hg : (buildContext env cfgTemplate stsConfig node).EnableGPS = true
        · rw [if_pos hg] at h
          simp only [List.mem_append, List.mem_singleton, Event.execute.injEq] at h
          rcases h with (((h | h) | h) | h) | h
          · exact Or.inl h
          · exact Or.inr h
          · exact absurd h hno
          · cases h
          · cases h
        · rw [if_neg hg] at h
          simp only [List.mem_append, List.mem_singleton, Event.execute.injEq] at h
          rcases h with ((h | h) | h) | h
          · exact Or.inl h
          · exact Or.inr h
          · exact absurd h hno
          · cases h

theorem setProfile_unknown (cfg : StsConfigTemplate) (mode : String)
    (h1 : mode ≠ "T-GM.8275.1") (h2 : mode ≠ "T-BC-8275.1") (h3 : mode ≠ "T-TSC.8275.1") :
    (setProfile cfg mode).ProfileId = cfg.ProfileId := by
  unfold setProfile
  simp [h1, h2, h3]

theorem ContextMatchesMode.of_prior {mode : String} {prior : Int} {ctx : StsConfigTemplate}
    (h : ContextMatchesMode mode prior ctx)
    (hp : mode ≠ "T-GM.8275.1" → mode ≠ "T-BC-8275.1" → mode ≠ "T-TSC.8275.1" → prior = 0) :
    ContextMatchesMode mode 0 ctx := by
  obtain ⟨a, b, c, d⟩ := h
  refine ⟨a, b, c, fun h1 h2 h3 => ?_⟩
  rw [← hp h1 h2 h3]
  exact d h1 h2 h3

theorem nodesLoop_execute (env : Env) (content : String) (stsConfig : StsConfig)
    (nodes : List Node) :
    ∀ (st : PassState) (cfgTemplate : StsConfigTemplate) (statusList : StsConfigStatus),
      (stsConfig.Spec.Mode ≠ "T-GM.8275.1" → stsConfig.Spec.Mode ≠ "T-BC-8275.1" →
        stsConfig.Spec.Mode ≠ "T-TSC.8275.1" → cfgTemplate.ProfileId = 0) →
      ∀ ctx, Event.execute ctx ∈
          (nodesLoop env content stsConfig st cfgTemplate statusList nodes).st.trace →
        Event.execute ctx ∈ st.trace ∨
          (ctx.StsConfig = some stsConfig ∧ ContextMatchesMode stsConfig.Spec.Mode 0 ctx) := by
  induction nodes with
  | nil =>
    intro st cfgTemplate statusList _ ctx h
    exact Or.inl (by simpa [nodesLoop] using h)
  | cons node rest ih =>
    intro st cfgTemplate statusList hp ctx h
    have hctx : ∀ c, Event.execute c ∈
        (reconcileNode env content stsConfig st cfgTemplate statusList node).st.trace →
        Event.execute c ∈ st.trace ∨
          (c.StsConfig = some stsConfig ∧ ContextMatchesMode stsConfig.Spec.Mode 0 c) := by
      intro c hc
      rcases reconcileNode_execute env content stsConfig st cfgTemplate statusList node c hc
        with h1 | h1
      · exact Or.inl h1
      · subst h1
        exact Or.inr ⟨(buildContext_fields env cfgTemplate stsConfig node).2.2.1,
          (buildContext_matches env cfgTemplate stsConfig node).of_prior hp⟩
    cases herr : (reconcileNode env content stsConfig st cfgTemplate statusList node).err with
    | some e =>
      simp only [nodesLoop, herr] at h
      exact hctx ctx h
    | none =>
      simp only [nodesLoop, herr] at h
      have hp2 : stsConfig.Spec.Mode ≠ "T-GM.8275.1" → stsConfig.Spec.Mode ≠ "T-BC-8275.1" →
          stsConfig.Spec.Mode ≠ "T-TSC.8275.1" →
          (reconcileNode env content stsConfig st cfgTemplate statusList node).cfgTemplate.ProfileId
            = 0 := by
        intro h1 h2 h3
        rw [reconcileNode_cfgTemplate, (buildContext_fields env cfgTemplate stsConfig node).1,
          setProfile_unknown cfgTemplate _ h1 h2 h3]
        exact hp h1 h2 h3
      rcases ih _ _ _ hp2 ctx h with h1 | h1
      · exact hctx ctx h1
      · exact Or.inr h1

theorem reconcileConfig_execute (env : Env) (content : String) (st : PassState)
    (stsConfig : StsConfig) (ctx : StsConfigTemplate)
    (h : Event.execute ctx ∈ (reconcileConfig env content st stsConfig).1.trace) :
    Event.execute ctx ∈ st.trace ∨
      (ctx.StsConfig = some stsConfig ∧ ContextMatchesMode stsConfig.Spec.Mode 0 ctx) := by
  unfold reconcileConfig at h
  cases hl : env.listNodes stsConfig with
  | error e =>
    by_cases hnf : e.IsNotFound = true
    · simp only [hl, hnf, if_true, List.mem_append, List.mem_singleton] at h
      rcases h with h | h
      · exact Or.inl h
      · cases h
    · simp only [hl, hnf, Bool.false_eq_true, if_false, List.mem_append,
        List.mem_singleton] at h
      rcases h with h | h
      · exact Or.inl h
      · cases h
  | ok nodes =>
    have hn := nodesLoop_execute env content stsConfig nodes
      { st with trace := st.trace ++ [Event.listNodes stsConfig.Name] }
      StsConfigTemplate.zero ⟨[]⟩ (fun _ _ _ => rfl) ctx
    have hfix : Event.execute ctx ∈ (nodesLoop env content stsConfig
        { st with trace := st.trace ++ [Event.listNodes stsConfig.Name] }
        StsConfigTemplate.zero ⟨[]⟩ nodes).st.trace →
        Event.execute ctx ∈ st.trace ∨
          (ctx.StsConfig = some stsConfig ∧ ContextMatchesMode stsConfig.Spec.Mode 0 ctx) := by
      intro hm
      rcases hn hm with h1 | h1
      · simp only [List.mem_append, List.mem_singleton] at h1
        rcases h1 with h1 | h1
        · exact Or.inl h1
        · cases h1
      · exact Or.inr h1
    cases herr : (nodesLoop env content stsConfig
        { st with trace := st.trace ++ [Event.listNodes stsConfig.Name] }
        StsConfigTemplate.zero ⟨[]⟩ nodes).err with
    | some e =>
      simp only [hl, herr] at h
      exact hfix h
    | none =>
      cases hu : env.statusUpdateErr { stsConfig with Status := (nodesLoop env content stsConfig
          { st with trace := st.trace ++ [Event.listNodes stsConfig.Name] }
          StsConfigTemplate.zero ⟨[]⟩ nodes).statusList } with
      | some e =>
        simp only [hl, herr, hu, List.mem_append, List.mem_singleton] at h
        rcases h with h | h
        · exact hfix h
        · cases h
      | none =>
        simp only [hl, herr, hu, List.mem_append, List.mem_singleton] at h
        rcases h with h | h
        · exact hfix h
        · cases h

theorem applyObject_isApply (env : Env) (cluster : List Obj) (obj : Obj) :
    ∀ ev ∈ (applyObject env cluster obj).calls, ev.isApply = true := by
  rcases applyObject_cases env cluster obj with ⟨_, _, _, h⟩ | ⟨_, e, _, _, h⟩ | ⟨old, _, _, h⟩ |
    ⟨old, _, _, _, h⟩ | ⟨old, e, _, _, _, h⟩ <;> rw [h] <;> simp [Event.isApply]

theorem applyObjects_isApply (env : Env) (objs : List Obj) :
    ∀ cluster : List Obj, ∀ ev ∈ (applyObjects env cluster objs).calls, ev.isApply = true := by
  induction objs with
  | nil => intro cluster ev hev; simp [applyObjects] at hev
  | cons obj rest ih =>
    intro cluster ev hev
    have h1 := applyObject_isApply env cluster obj
    cases herr : (applyObject env cluster obj).err with
    | some e =>
      simp only [applyObjects, herr] at hev
      exact h1 ev hev
    | none =>
      simp only [applyObjects, herr, List.mem_append] at hev
      rcases hev with h | h
      · exact h1 ev h
      · exact ih _ ev h

/-- What a node iteration that did not return leaves. -/
theorem reconcileNode_ok (env : Env) (content : String) (stsConfig : StsConfig)
    (st : PassState) (cfgTemplate : StsConfigTemplate) (statusList : StsConfigStatus)
    (node : Node)
    (h : (reconcileNode env content stsConfig st cfgTemplate statusList node).err = none) :
    ∃ text objects,
      env.execute content (buildContext env cfgTemplate stsConfig node) = .ok text ∧
      decodeObjects env st.objects (splitDocs text) = .ok objects ∧
      (applyObjects env st.cluster objects).err = none ∧
      reconcileNode env content stsConfig st cfgTemplate statusList node =
        ⟨⟨(applyObjects env st.cluster objects).cluster,
            (applyObjects env st.cluster objects).objects,
            st.trace ++ [Event.execute (buildContext env cfgTemplate stsConfig node)] ++
              (applyObjects env st.cluster objects).calls ++
              [Event.goQueryTsyncd
                ((buildContext env cfgTemplate stsConfig node).ServicePrefix ++ "-tsyncd")
                (buildContext env cfgTemplate stsConfig node).TsyncPort] ++
              (if (buildContext env cfgTemplate stsConfig node).EnableGPS = true then
                [Event.goQueryGpsd
                  ((buildContext env cfgTemplate stsConfig node).ServicePrefix ++ "-gpsd")
                  (buildContext env cfgTemplate stsConfig node).GpsPort]
              else [])⟩,
          buildContext env cfgTemplate stsConfig node,
          ⟨statusList.NodeStatus ++ [nodeStatusOf node stsConfig]⟩, none⟩ := by
  unfold reconcileNode at h ⊢
  cases hx : env.execute content (buildContext env cfgTemplate stsConfig node) with
  | error e => simp [hx] at h
  | ok text =>
    cases hd : decodeObjects env st.objects (splitDocs text) with
    | error e => simp [hx, hd] at h
    | ok objects =>
      cases herr : (applyObjects env st.cluster objects).err with
      | some e => simp [hx, hd, herr] at h
      | none =>
        refine ⟨text, objects, rfl, hd, herr, ?_⟩
        simp only [hx, hd, herr]
        by_cases hg : (buildContext env cfgTemplate stsConfig node).EnableGPS = true
        · simp [hg]
        · simp [hg]

/-- C3: the render context built for a node has profile id 2 with GPS for mode
`"T-GM.8275.1"`, 1 without GPS for `"T-BC-8275.1"`, 3 without GPS for `"T-TSC.8275.1"`, and
for any other mode GPS disabled with the profile id at its prior value, which is zero in
every context rendered while a StsConfig is processed.  GPS is enabled exactly for mode
`"T-GM.8275.1"`, and a node iteration that completes starts the RPC poller and, exactly for
that mode, the telemetry poller.  The scenario: one interface on port 2, master and
SyncE-enabled, gives masks 4 and 4, profile id 2, GPS enabled. -/
theorem C3_profile_and_gps (env : Env) (stsConfig : StsConfig) :
    (∀ (cfgTemplate : StsConfigTemplate) (node : Node),
      ContextMatchesMode stsConfig.Spec.Mode cfgTemplate.ProfileId
        (buildContext env cfgTemplate stsConfig node)) ∧
    (∀ (content : String) (st : PassState) (ctx : StsConfigTemplate),
      Event.execute ctx ∈ (reconcileConfig env content st stsConfig).1.trace →
        Event.execute ctx ∈ st.trace ∨
          (ctx.StsConfig = some stsConfig ∧ ContextMatchesMode stsConfig.Spec.Mode 0 ctx)) ∧
    (∀ (cfgTemplate : StsConfigTemplate) (node : Node),
      (buildContext env cfgTemplate stsConfig node).EnableGPS = true ↔
        stsConfig.Spec.Mode = "T-GM.8275.1") ∧
    (∀ (content : String) (st : PassState) (cfgTemplate : StsConfigTemplate)
        (statusList : StsConfigStatus) (node : Node),
      (reconcileNode env content stsConfig st cfgTemplate statusList node).err = none →
      ∃ calls : List Event, (∀ ev ∈ calls, ev.isApply = true) ∧
        (reconcileNode env content stsConfig st cfgTemplate statusList node).st.trace =
          st.trace ++ [Event.execute (buildContext env cfgTemplate stsConfig node)] ++ calls ++
            [Event.goQueryTsyncd (node.Name ++ "-tsyncd")
              (buildContext env cfgTemplate stsConfig node).TsyncPort] ++
            (if stsConfig.Spec.Mode = "T-GM.8275.1" then
              [Event.goQueryGpsd (node.Name ++ "-gpsd")
                (buildContext env cfgTemplate stsConfig node).GpsPort]
            else [])) ∧
    (∀ (cfgTemplate : StsConfigTemplate) (name : String) (selector : List (String × String))
        (status : StsConfigStatus) (node : Node),
      (buildContext env cfgTemplate
          ⟨name, ⟨selector, "T-GM.8275.1", [⟨2, 1, "Master"⟩]⟩, status⟩ node).SyncePortMask = 4 ∧
      (buildContext env cfgTemplate
          ⟨name, ⟨selector, "T-GM.8275.1", [⟨2, 1, "Master"⟩]⟩, status⟩ node).MasterPortMask = 4 ∧
      (buildContext env cfgTemplate
          ⟨name, ⟨selector, "T-GM.8275.1", [⟨2, 1, "Master"⟩]⟩, status⟩ node).ProfileId = 2 ∧
      (buildContext env cfgTemplate
          ⟨name, ⟨selector, "T-GM.8275.1", [⟨2, 1, "Master"⟩]⟩, status⟩ node).EnableGPS = true) := by
  refine ⟨fun cfgTemplate node => buildContext_matches env cfgTemplate stsConfig node,
    fun content st ctx h => reconcileConfig_execute env content st stsConfig ctx h,
    fun cfgTemplate node => buildContext_gps_iff env cfgTemplate stsConfig node, ?_, ?_⟩
  · intro content st cfgTemplate statusList node h
    obtain ⟨text, objects, _, _, _, hr⟩ :=
      reconcileNode_ok env content stsConfig st cfgTemplate statusList node h
    refine ⟨(applyObjects env st.cluster objects).calls,
      applyObjects_isApply env objects st.cluster, ?_⟩
    rw [hr]
    have hp := (buildContext_fields env cfgTemplate stsConfig node).2.2.2.2.2.1
    have hg := buildContext_gps_iff env cfgTemplate stsConfig node
    simp only [hp]
    by_cases hm : stsConfig.Spec.Mode = "T-GM.8275.1"
    · rw [if_pos hm, if_pos (hg.mpr hm)]
    · rw [if_neg hm, if_neg (fun hh => hm (hg.mp hh))]
  · intro cfgTemplate name selector status node
    refine ⟨?_, ?_, ?_, ?_⟩
    · simp [buildContext, interfacesToBitmask, interfacesToBitmask.step, shl1]
    · simp [buildContext, interfacesToBitmask, interfacesToBitmask.step, shl1]
    · rw [(buildContext_fields env cfgTemplate _ node).1]; simp [setProfile]
    · rw [(buildContext_fields env cfgTemplate _ node).2.1]; simp [setProfile]

/-- C3 at concrete inputs: an unrecognised mode on the fresh context keeps profile id 0 and
GPS off; the boundary-clock mode gives profile id 1. -/
theorem C3_profile_and_gps_witness :
    ((buildContext ⟨.ok [], .ok "", fun _ => none, fun _ => .ok [], fun _ => "",
        fun _ _ => .ok "", fun _ => .error .notFound, fun _ _ _ => none, fun _ _ => none, fun _ _ => none,
        fun _ => none⟩
      StsConfigTemplate.zero ⟨"cfg", ⟨[], "T-XX", []⟩, ⟨[]⟩⟩ ⟨"node-a"⟩).ProfileId = 0 ∧
     (buildContext ⟨.ok [], .ok "", fun _ => none, fun _ => .ok [], fun _ => "",
        fun _ _ => .ok "", fun _ => .error .notFound, fun _ _ _ => none, fun _ _ => none, fun _ _ => none,
        fun _ => none⟩
      StsConfigTemplate.zero ⟨"cfg", ⟨[], "T-XX", []⟩, ⟨[]⟩⟩ ⟨"node-a"⟩).EnableGPS = false) :=
  ((C3_profile_and_gps ⟨.ok [], .ok "", fun _ => none, fun _ => .ok [], fun _ => "",
        fun _ _ => .ok "", fun _ => .error .notFound, fun _ _ _ => none, fun _ _ => none, fun _ _ => none,
        fun _ => none⟩ ⟨"cfg", ⟨[], "T-XX", []⟩, ⟨[]⟩⟩).1 StsConfigTemplate.zero ⟨"node-a"⟩).2.2.2
    (by decide) (by decide) (by decide)


/-! ## C4: ports from the environment -/

/-- C4 (the code diverges from the claim): a non-numeric value of two or more bytes makes the
port 0, the value `strconv.Atoi` returns with its error, instead of the default; a one-digit
value is ignored and the default is kept.  An empty value keeps the default and a numeral
of two or more digits is taken.  Both environment ports go through the same lines. -/
theorem C4_port_from_environment_diverges :
    Atoi "abc" = (0, false) ∧ portFromEnv 2947 "abc" = 0 ∧ portFromEnv 50051 "abc" = 0 ∧
    Atoi "7" = (7, true) ∧ portFromEnv 2947 "7" = 2947 ∧ portFromEnv 50051 "7" = 50051 ∧
    portFromEnv 2947 "" = 2947 ∧ portFromEnv 2947 "8080" = 8080 ∧
    (buildContext ⟨.ok [], .ok "", fun _ => none, fun _ => .ok [],
        fun k => if k = "GPS_PORT" then "abc" else if k = "TSYNC_PORT" then "7" else "",
        fun _ _ => .ok "", fun _ => .error .notFound, fun _ _ _ => none, fun _ _ => none, fun _ _ => none,
        fun _ => none⟩
      StsConfigTemplate.zero ⟨"cfg", ⟨[], "T-GM.8275.1", []⟩, ⟨[]⟩⟩ ⟨"node-a"⟩).GpsPort = 0 ∧
    (buildContext ⟨.ok [], .ok "", fun _ => none, fun _ => .ok [],
        fun k => if k = "GPS_PORT" then "abc" else if k = "TSYNC_PORT" then "7" else "",
        fun _ _ => .ok "", fun _ => .error .notFound, fun _ _ _ => none, fun _ _ => none, fun _ _ => none,
        fun _ => none⟩
      StsConfigTemplate.zero ⟨"cfg", ⟨[], "T-GM.8275.1", []⟩, ⟨[]⟩⟩ ⟨"node-a"⟩).TsyncPort
        = 50051 := by
  refine ⟨by decide, by decide, by decide, by decide, by decide, by decide, by decide,
    by decide, ?_, ?_⟩
  · rw [(buildContext_fields _ _ _ _).2.2.2.1]; decide
  · rw [(buildContext_fields _ _ _ _).2.2.2.2.1]; decide

/-! ## C10: a query cycle of the RPC poller -/

/-- C10 (the code diverges from the claim): when `GetStatus` fails with a nil reply, the
cycle logs the failure and then reads `r.Message` through the nil reply; it faults there,
`GetMode` and `GetTime` are never called, the wait is not reached and no later cycle runs.
The same happens after a failed `GetMode` and after a failed `GetTime`; only a cycle whose
three calls all succeed reaches the wait. -/
theorem C10_failed_query_faults (e : Err) (m t : CallResult) (s : String)
    (rest : List (CallResult × CallResult × CallResult)) :
    query_tsyncd.cycle (CallResult.failure e) m t =
      ([.call "GetStatus", .print "could not get status", .nilDereference], false) ∧
    query_tsyncd.cycles ((CallResult.failure e, m, t) :: rest) =
      ([.call "GetStatus", .print "could not get status", .nilDereference], false) ∧
    query_tsyncd.cycle (CallResult.success s) (CallResult.failure e) t =
      ([.call "GetStatus", .print ("Status: " ++ s), .call "GetMode",
        .print "could not get mode", .nilDereference], false) ∧
    query_tsyncd.cycle (CallResult.success s) (CallResult.success s) (CallResult.failure e) =
      ([.call "GetStatus", .print ("Status: " ++ s), .call "GetMode",
        .print ("Mode: " ++ s), .call "GetTime", .print "could not get time",
        .nilDereference], false) ∧
    query_tsyncd.cycle (CallResult.success s) (CallResult.success s) (CallResult.success s) =
      ([.call "GetStatus", .print ("Status: " ++ s), .call "GetMode",
        .print ("Mode: " ++ s), .call "GetTime", .print ("Time: " ++ s), .cancel,
        .sleep 30], true) := by
  refine ⟨?_, ?_, ?_, ?_, ?_⟩ <;>
    simp [query_tsyncd.cycles, query_tsyncd.cycle, query_tsyncd.one, CallResult.failure,
      CallResult.success]

/-! ## C5: the apply step -/

theorem Reconcile_trace_of_readFile_error (env : Env) (cluster : List Obj) (e : Err)
    (h : env.readFile = .error e) :
    (Reconcile env cluster).st.trace = [Event.listStsConfigs] := by
  unfold Reconcile
  cases hl : env.listStsConfigs with
  | error e0 =>
    by_cases hnf : e0.IsNotFound = true
    · simp [hnf]
    · simp [hnf]
  | ok items => simp [h]

/-- A failed call of a pass that is not a render is the last call and its error is returned. -/
theorem Reconcile_failed_write (env : Env) (cluster : List Obj) (t1 t2 : List Event)
    (ev : Event) (e : Err) (hne : ev ≠ Event.listStsConfigs)
    (hf : ∀ content, ev.failure env content = some e)
    (ht : (Reconcile env cluster).st.trace = t1 ++ ev :: t2) :
    t2 = [] ∧ (Reconcile env cluster).err = some e := by
  cases hr : env.readFile with
  | error e0 =>
    rw [Reconcile_trace_of_readFile_error env cluster e0 hr] at ht
    have hm : ev ∈ [Event.listStsConfigs] := by rw [ht]; simp
    rw [List.mem_singleton] at hm
    exact absurd hm hne
  | ok content =>
    exact (Reconcile_ends env cluster content hr).sealed t1 t2 ev e ht (hf content)

/-- C5, as amended: for every rendered object and cluster state the apply step issues,
after the lookup, exactly one of: a create, exactly when the lookup returns an error, which
it does whenever no object of that kind and key exists; an update of the rendered object
carrying the observed resource version, exactly when the lookup returns an object and the
rendered object is not derivative-equal to it; or no write, exactly when the lookup returns
an object and the rendered object is derivative-equal to it.  When the lookup does not fail
for a reason of its own, these are the conditions on the cluster state: absent, present and
not derivative-equal, present and derivative-equal.  A failed create or update is the last
call of the pass and `Reconcile` returns its error. -/
theorem C5_apply_step (env : Env) (cluster : List Obj) (obj : Obj) :
    ((∃ o e, Event.create o e ∈ (applyObject env cluster obj).calls) ↔
      ∃ eg, clientGet env cluster obj.GVK (ObjectKeyFromObject obj) = .error eg) ∧
    ((∃ o e, Event.update o e ∈ (applyObject env cluster obj).calls) ↔
      ∃ old, clientGet env cluster obj.GVK (ObjectKeyFromObject obj) = .ok old ∧
        DeepDerivative obj old = false) ∧
    ((∀ ev ∈ (applyObject env cluster obj).calls, ev.isWrite = false) ↔
      ∃ old, clientGet env cluster obj.GVK (ObjectKeyFromObject obj) = .ok old ∧
        DeepDerivative obj old = true) ∧
    (clusterGet cluster obj.GVK (ObjectKeyFromObject obj) = none →
      ∃ eg, clientGet env cluster obj.GVK (ObjectKeyFromObject obj) = .error eg) ∧
    (∀ old, clientGet env cluster obj.GVK (ObjectKeyFromObject obj) = .ok old →
      clusterGet cluster obj.GVK (ObjectKeyFromObject obj) = some old) ∧
    ((∃ eg, clientGet env cluster obj.GVK (ObjectKeyFromObject obj) = .error eg) →
      (applyObject env cluster obj).calls =
        [.get obj.GVK (ObjectKeyFromObject obj), .create obj (env.createErr cluster obj)]) ∧
    (∀ old, clientGet env cluster obj.GVK (ObjectKeyFromObject obj) = .ok old →
      DeepDerivative obj old = false →
      (applyObject env cluster obj).calls =
        [.get obj.GVK (ObjectKeyFromObject obj),
          .update (obj.SetResourceVersion old.ResourceVersion)
            (env.updateErr cluster (obj.SetResourceVersion old.ResourceVersion))] ∧
      (obj.SetResourceVersion old.ResourceVersion).ResourceVersion = old.ResourceVersion) ∧
    (∀ old, clientGet env cluster obj.GVK (ObjectKeyFromObject obj) = .ok old →
      DeepDerivative obj old = true →
      (applyObject env cluster obj).calls = [.get obj.GVK (ObjectKeyFromObject obj)]) ∧
    (env.getErr cluster obj.GVK (ObjectKeyFromObject obj) = none →
      ((∃ o e, Event.create o e ∈ (applyObject env cluster obj).calls) ↔
        clusterGet cluster obj.GVK (ObjectKeyFromObject obj) = none) ∧
      ((∃ o e, Event.update o e ∈ (applyObject env cluster obj).calls) ↔
        ∃ old, clusterGet cluster obj.GVK (ObjectKeyFromObject obj) = some old ∧
          DeepDerivative obj old = false) ∧
      ((∀ ev ∈ (applyObject env cluster obj).calls, ev.isWrite = false) ↔
        ∃ old, clusterGet cluster obj.GVK (ObjectKeyFromObject obj) = some old ∧
          DeepDerivative obj old = true)) ∧
    (∀ (cluster0 : List Obj) (t1 t2 : List Event) (o : Obj) (e : Err),
      (Reconcile env cluster0).st.trace = t1 ++ Event.create o (some e) :: t2 →
        t2 = [] ∧ (Reconcile env cluster0).err = some e) ∧
    (∀ (cluster0 : List Obj) (t1 t2 : List Event) (o : Obj) (e : Err),
      (Reconcile env cluster0).st.trace = t1 ++ Event.update o (some e) :: t2 →
        t2 = [] ∧ (Reconcile env cluster0).err = some e) := by
  refine ⟨?_, ?_, ?_, ?_, ?_, ?_, ?_, ?_, ?_, ?_, ?_⟩
  · rcases applyObject_cases env cluster obj with ⟨eg, hg, _, h⟩ | ⟨eg, e, hg, _, h⟩ |
      ⟨old, hg, _, h⟩ | ⟨old, hg, _, _, h⟩ | ⟨old, e, hg, _, _, h⟩ <;> rw [h] <;> simp [hg]
  · rcases applyObject_cases env cluster obj with ⟨eg, hg, hd, h⟩ | ⟨eg, e, hg, hd, h⟩ |
      ⟨old, hg, hd, h⟩ | ⟨old, hg, hd, _, h⟩ | ⟨old, e, hg, hd, _, h⟩ <;> rw [h] <;>
      simp [hg, hd]
  · rcases applyObject_cases env cluster obj with ⟨eg, hg, hd, h⟩ | ⟨eg, e, hg, hd, h⟩ |
      ⟨old, hg, hd, h⟩ | ⟨old, hg, hd, _, h⟩ | ⟨old, e, hg, hd, _, h⟩ <;> rw [h] <;>
      simp [hg, hd, Event.isWrite]
  · exact clientGet_of_absent env cluster _ _
  · exact clientGet_ok env cluster _ _
  · rintro ⟨eg0, hg0⟩
    rcases applyObject_cases env cluster obj with ⟨eg, hg, hc, h⟩ | ⟨eg, e, hg, hc, h⟩ |
      ⟨old, hg, hd, h⟩ | ⟨old, hg, hd, _, h⟩ | ⟨old, e, hg, hd, _, h⟩
    · rw [h, hc]
    · rw [h, hc]
    · rw [hg] at hg0; cases hg0
    · rw [hg] at hg0; cases hg0
    · rw [hg] at hg0; cases hg0
  · intro old0 hsome hdd
    rcases applyObject_cases env cluster obj with ⟨eg, hg, hc, h⟩ | ⟨eg, e, hg, hc, h⟩ |
      ⟨old, hg, hd, h⟩ | ⟨old, hg, hd, hu, h⟩ | ⟨old, e, hg, hd, hu, h⟩
    · rw [hg] at hsome; cases hsome
    · rw [hg] at hsome; cases hsome
    · rw [hg] at hsome; cases hsome; rw [hd] at hdd; cases hdd
    · rw [hg] at hsome; cases hsome; rw [h, hu]; exact ⟨rfl, rfl⟩
    · rw [hg] at hsome; cases hsome; rw [h, hu]; exact ⟨rfl, rfl⟩
  · intro old0 hsome hdd
    rcases applyObject_cases env cluster obj with ⟨eg, hg, hc, h⟩ | ⟨eg, e, hg, hc, h⟩ |
      ⟨old, hg, hd, h⟩ | ⟨old, hg, hd, hu, h⟩ | ⟨old, e, hg, hd, hu, h⟩
    · rw [hg] at hsome; cases hsome
    · rw [hg] at hsome; cases hsome
    · rw [h]
    · rw [hg] at hsome; cases hsome; rw [hd] at hdd; cases hdd
    · rw [hg] at hsome; cases hsome; rw [hd] at hdd; cases hdd
  · intro hget
    refine ⟨?_, ?_, ?_⟩
    · rcases applyObject_cases_reliable env cluster obj hget with ⟨hg, hd, h⟩ |
        ⟨e, hg, hd, h⟩ | ⟨old, hg, hd, h⟩ | ⟨old, hg, hd, _, h⟩ | ⟨old, e, hg, hd, _, h⟩ <;>
        rw [h] <;> simp [hg]
    · rcases applyObject_cases_reliable env cluster obj hget with ⟨hg, hd, h⟩ |
        ⟨e, hg, hd, h⟩ | ⟨old, hg, hd, h⟩ | ⟨old, hg, hd, _, h⟩ | ⟨old, e, hg, hd, _, h⟩ <;>
        rw [h] <;> simp [hg, hd]
    · rcases applyObject_cases_reliable env cluster obj hget with ⟨hg, hd, h⟩ |
        ⟨e, hg, hd, h⟩ | ⟨old, hg, hd, h⟩ | ⟨old, hg, hd, _, h⟩ | ⟨old, e, hg, hd, _, h⟩ <;>
        rw [h] <;> simp [hg, hd, Event.isWrite]
  · intro cluster0 t1 t2 o e ht
    exact Reconcile_failed_write env cluster0 t1 t2 (Event.create o (some e)) e (by simp)
      (fun _ => rfl) ht
  · intro cluster0 t1 t2 o e ht
    exact Reconcile_failed_write env cluster0 t1 t2 (Event.update o (some e)) e (by simp)
      (fun _ => rfl) ht


/-- C5 as amended, at a concrete input: the lookup is answered from the store, the cluster
is empty, and the object is looked up and created. -/
theorem C5_apply_step_witness :
    (applyObject ⟨.ok [], .ok "", fun _ => none, fun _ => .ok [], fun _ => "",
        fun _ _ => .ok "", fun _ => .error .notFound, fun _ _ _ => none, fun _ _ => none,
        fun _ _ => none, fun _ => none⟩ []
      ⟨"v1/ConfigMap", "sts", "cm", "", [("data", "1")]⟩).calls =
      [.get "v1/ConfigMap" ⟨"sts", "cm"⟩,
        .create ⟨"v1/ConfigMap", "sts", "cm", "", [("data", "1")]⟩ none] :=
  (C5_apply_step ⟨.ok [], .ok "", fun _ => none, fun _ => .ok [], fun _ => "",
        fun _ _ => .ok "", fun _ => .error .notFound, fun _ _ _ => none, fun _ _ => none,
        fun _ _ => none, fun _ => none⟩ []
      ⟨"v1/ConfigMap", "sts", "cm", "", [("data", "1")]⟩).2.2.2.2.2.1
    ⟨.notFound, rfl⟩

/-- C5 as stated fails: the cluster holds the very object that is rendered, so an object of
that kind and key exists and the rendered object is derivative-equal to it, but the lookup
fails with a timeout.  The apply step takes the create branch: it issues a create, which the
cluster rejects because the object exists. -/
theorem C5_create_on_failed_lookup_counterexample :
    clusterGet [⟨"v1/ConfigMap", "sts", "cm", "7", [("data", "1")]⟩] "v1/ConfigMap"
        ⟨"sts", "cm"⟩ = some ⟨"v1/ConfigMap", "sts", "cm", "7", [("data", "1")]⟩ ∧
    DeepDerivative ⟨"v1/ConfigMap", "sts", "cm", "", [("data", "1")]⟩
        ⟨"v1/ConfigMap", "sts", "cm", "7", [("data", "1")]⟩ = true ∧
    (applyObject ⟨.ok [], .ok "", fun _ => none, fun _ => .ok [], fun _ => "",
        fun _ _ => .ok "", fun _ => .error .notFound,
        fun _ _ _ => some (.failed "timeout"),
        fun _ _ => some (.failed "already exists"), fun _ _ => none, fun _ => none⟩
      [⟨"v1/ConfigMap", "sts", "cm", "7", [("data", "1")]⟩]
      ⟨"v1/ConfigMap", "sts", "cm", "", [("data", "1")]⟩).calls =
      [.get "v1/ConfigMap" ⟨"sts", "cm"⟩,
        .create ⟨"v1/ConfigMap", "sts", "cm", "", [("data", "1")]⟩
          (some (.failed "already exists"))] ∧
    (applyObject ⟨.ok [], .ok "", fun _ => none, fun _ => .ok [], fun _ => "",
        fun _ _ => .ok "", fun _ => .error .notFound,
        fun _ _ _ => some (.failed "timeout"),
        fun _ _ => some (.failed "already exists"), fun _ _ => none, fun _ => none⟩
      [⟨"v1/ConfigMap", "sts", "cm", "7", [("data", "1")]⟩]
      ⟨"v1/ConfigMap", "sts", "cm", "", [("data", "1")]⟩).err =
      some (.failed "already exists") := by
  refine ⟨by decide, by decide, by decide, by decide⟩

/-! ## C7: fail-fast decode -/

theorem decodeObjects_ok_all (env : Env) (segs : List String) :
    ∀ (objects r : List Obj), decodeObjects env objects segs = .ok r →
      ∀ seg ∈ segs, ∃ obj, env.decode seg = .ok obj := by
  induction segs with
  | nil => intro objects r _ seg hseg; cases hseg
  | cons s rest ih =>
    intro objects r h seg hseg
    cases hd : env.decode s with
    | error e0 => simp only [decodeObjects, hd] at h; cases h
    | ok obj =>
      simp only [decodeObjects, hd] at h
      rcases List.mem_cons.mp hseg with h1 | h1
      · subst h1; exact ⟨obj, hd⟩
      · exact ih _ _ h seg h1

theorem reconcileNode_render_failed (env : Env) (content : String) (stsConfig : StsConfig)
    (st : PassState) (cfgTemplate : StsConfigTemplate) (statusList : StsConfigStatus)
    (node : Node) (e : Err)
    (h : renderErr env content (buildContext env cfgTemplate stsConfig node) = some e) :
    reconcileNode env content stsConfig st cfgTemplate statusList node =
      ⟨{ st with trace := st.trace ++
          [Event.execute (buildContext env cfgTemplate stsConfig node)] },
        buildContext env cfgTemplate stsConfig node, statusList, some e⟩ := by
  unfold renderErr at h
  unfold reconcileNode
  cases hx : env.execute content (buildContext env cfgTemplate stsConfig node) with
  | error e0 =>
    simp only [hx] at h
    cases h
    simp only [hx]
  | ok text =>
    simp only [hx] at h
    cases hd : decodeObjects env st.objects (splitDocs text) with
    | error e0 =>
      have h2 := decodeObjects_error env _ _ _ hd
      rw [h] at h2
      cases h2
      simp only [hx, hd]
    | ok objects =>
      have h2 := decodeObjects_ok env _ _ _ hd
      rw [h] at h2
      cases h2

theorem renderErr_of_bad_segment (env : Env) (content : String) (ctx : StsConfigTemplate)
    (text seg : String) (e : Err) (hx : env.execute content ctx = .ok text)
    (hseg : seg ∈ splitDocs text) (hd : env.decode seg = .error e) :
    ∃ e0, renderErr env content ctx = some e0 := by
  cases hr : renderErr env content ctx with
  | some e0 => exact ⟨e0, rfl⟩
  | none =>
    exfalso
    unfold renderErr at hr
    simp only [hx] at hr
    rw [List.findSome?_eq_none_iff] at hr
    have := hr (env.decode seg) (List.mem_map.mpr ⟨seg, hseg, rfl⟩)
    rw [hd] at this
    cases this

/-- C7: if template execution fails for a node, or any one segment of the text rendered for
it fails to decode, the node iteration returns the error having issued no call but the
render itself, with the cluster untouched, and in a pass such a render is the last call and
its error is what `Reconcile` returns; an iteration that issues any further call has
decoded every segment of its render. -/
theorem C7_failfast_decode (env : Env) (content : String) :
    (∀ (stsConfig : StsConfig) (st : PassState) (cfgTemplate : StsConfigTemplate)
        (statusList : StsConfigStatus) (node : Node),
      ((∃ e, env.execute content (buildContext env cfgTemplate stsConfig node) = .error e) ∨
        (∃ text seg e,
          env.execute content (buildContext env cfgTemplate stsConfig node) = .ok text ∧
          seg ∈ splitDocs text ∧ env.decode seg = .error e)) →
      ∃ e, reconcileNode env content stsConfig st cfgTemplate statusList node =
        ⟨⟨st.cluster, st.objects,
            st.trace ++ [Event.execute (buildContext env cfgTemplate stsConfig node)]⟩,
          buildContext env cfgTemplate stsConfig node, statusList, some e⟩) ∧
    (∀ (cluster : List Obj) (t1 t2 : List Event) (ctx : StsConfigTemplate),
      env.readFile = .ok content →
      (Reconcile env cluster).st.trace = t1 ++ Event.execute ctx :: t2 →
      ((∃ e, env.execute content ctx = .error e) ∨
        (∃ text seg e, env.execute content ctx = .ok text ∧
          seg ∈ splitDocs text ∧ env.decode seg = .error e)) →
      t2 = [] ∧ (Reconcile env cluster).err = renderErr env content ctx ∧
        (Reconcile env cluster).err ≠ none) ∧
    (∀ (stsConfig : StsConfig) (st : PassState) (cfgTemplate : StsConfigTemplate)
        (statusList : StsConfigStatus) (node : Node),
      (reconcileNode env content stsConfig st cfgTemplate statusList node).st.trace ≠
        st.trace ++ [Event.execute (buildContext env cfgTemplate stsConfig node)] →
      ∃ text, env.execute content (buildContext env cfgTemplate stsConfig node) = .ok text ∧
        ∀ seg ∈ splitDocs text, ∃ obj, env.decode seg = .ok obj) := by
  have hbad : ∀ ctx : StsConfigTemplate,
      ((∃ e, env.execute content ctx = .error e) ∨
        (∃ text seg e, env.execute content ctx = .ok text ∧
          seg ∈ splitDocs text ∧ env.decode seg = .error e)) →
      ∃ e, renderErr env content ctx = some e := by
    intro ctx h
    rcases h with ⟨e, hx⟩ | ⟨text, seg, e, hx, hseg, hd⟩
    · exact ⟨e, by simp [renderErr, hx]⟩
    · exact renderErr_of_bad_segment env content ctx text seg e hx hseg hd
  refine ⟨?_, ?_, ?_⟩
  · intro stsConfig st cfgTemplate statusList node h
    obtain ⟨e, he⟩ := hbad _ h
    exact ⟨e, reconcileNode_render_failed env content stsConfig st cfgTemplate statusList
      node e he⟩
  · intro cluster t1 t2 ctx hr ht h
    obtain ⟨e, he⟩ := hbad ctx h
    obtain ⟨h1, h2⟩ := (Reconcile_ends env cluster content hr).sealed t1 t2
      (Event.execute ctx) e ht he
    refine ⟨h1, ?_, ?_⟩
    · rw [h2, he]
    · rw [h2]; simp
  · intro stsConfig st cfgTemplate statusList node hne
    cases hx : env.execute content (buildContext env cfgTemplate stsConfig node) with
    | error e =>
      exfalso
      apply hne
      rw [reconcileNode_render_failed env content stsConfig st cfgTemplate statusList node e
        (by simp [renderErr, hx])]
    | ok text =>
      refine ⟨text, rfl, ?_⟩
      cases hd : decodeObjects env st.objects (splitDocs text) with
      | error e =>
        exfalso
        apply hne
        have he : renderErr env content (buildContext env cfgTemplate stsConfig node) =
            some e := by
          simp only [renderErr, hx]
          exact decodeObjects_error env _ _ _ hd
        rw [reconcileNode_render_failed env content stsConfig st cfgTemplate statusList node e
          he]
      | ok objects => exact decodeObjects_ok_all env _ _ _ hd


/-- C7 at a concrete input: the second segment of the rendered text does not decode; the
node iteration returns that error and the trace holds the render only. -/
theorem C7_failfast_decode_witness :
    ∃ e, reconcileNode ⟨.ok [], .ok "", fun _ => none, fun _ => .ok [], fun _ => "",
        fun _ _ => .ok "a\n---b",
        fun s => if s = "b" then .error (.failed "bad") else .ok ⟨"v1/ConfigMap", "sts", s, "", []⟩,
        fun _ _ _ => none, fun _ _ => none, fun _ _ => none, fun _ => none⟩
      "" ⟨"cfg", ⟨[], "T-GM.8275.1", []⟩, ⟨[]⟩⟩ ⟨[], [], []⟩ StsConfigTemplate.zero ⟨[]⟩
      ⟨"node-a"⟩ =
    ⟨⟨[], [], [] ++ [Event.execute (buildContext ⟨.ok [], .ok "", fun _ => none,
        fun _ => .ok [], fun _ => "", fun _ _ => .ok "a\n---b",
        fun s => if s = "b" then .error (.failed "bad") else .ok ⟨"v1/ConfigMap", "sts", s, "", []⟩,
        fun _ _ _ => none, fun _ _ => none, fun _ _ => none, fun _ => none⟩ StsConfigTemplate.zero
        ⟨"cfg", ⟨[], "T-GM.8275.1", []⟩, ⟨[]⟩⟩ ⟨"node-a"⟩)]⟩,
      buildContext ⟨.ok [], .ok "", fun _ => none,
        fun _ => .ok [], fun _ => "", fun _ _ => .ok "a\n---b",
        fun s => if s = "b" then .error (.failed "bad") else .ok ⟨"v1/ConfigMap", "sts", s, "", []⟩,
        fun _ _ _ => none, fun _ _ => none, fun _ _ => none, fun _ => none⟩ StsConfigTemplate.zero
        ⟨"cfg", ⟨[], "T-GM.8275.1", []⟩, ⟨[]⟩⟩ ⟨"node-a"⟩,
      ⟨[]⟩, some e⟩ :=
  (C7_failfast_decode ⟨.ok [], .ok "", fun _ => none, fun _ => .ok [], fun _ => "",
        fun _ _ => .ok "a\n---b",
        fun s => if s = "b" then .error (.failed "bad") else .ok ⟨"v1/ConfigMap", "sts", s, "", []⟩,
        fun _ _ _ => none, fun _ _ => none, fun _ _ => none, fun _ => none⟩ "").1
    ⟨"cfg", ⟨[], "T-GM.8275.1", []⟩, ⟨[]⟩⟩ ⟨[], [], []⟩ StsConfigTemplate.zero ⟨[]⟩ ⟨"node-a"⟩
    (Or.inr ⟨"a\n---b", "b", .failed "bad", rfl, by decide, by simp⟩)

/-! ## C9: the persisted status -/

theorem Event.isStatusUpdate_of_isApply {ev : Event} (h : ev.isApply = true) :
    ev.isStatusUpdate = false := by
  cases ev <;> simp [Event.isApply] at h <;> rfl

theorem nodesLoop_ok (env : Env) (content : String) (stsConfig : StsConfig)
    (nodes : List Node) :
    ∀ (st : PassState) (cfgTemplate : StsConfigTemplate) (statusList : StsConfigStatus),
      (nodesLoop env content stsConfig st cfgTemplate statusList nodes).err = none →
      (nodesLoop env content stsConfig st cfgTemplate statusList nodes).statusList =
          ⟨statusList.NodeStatus ++ nodes.map (fun node => nodeStatusOf node stsConfig)⟩ ∧
      ∃ mid, (∀ ev ∈ mid, ev.isStatusUpdate = false) ∧
        (nodesLoop env content stsConfig st cfgTemplate statusList nodes).st.trace =
          st.trace ++ mid := by
  induction nodes with
  | nil =>
    intro st cfgTemplate statusList _
    refine ⟨by simp [nodesLoop], [], by simp, by simp [nodesLoop]⟩
  | cons node rest ih =>
    intro st cfgTemplate statusList h
    cases herr : (reconcileNode env content stsConfig st cfgTemplate statusList node).err with
    | some e => simp [nodesLoop, herr] at h
    | none =>
      simp only [nodesLoop, herr] at h ⊢
      obtain ⟨text, objects, _, _, _, hr⟩ :=
        reconcileNode_ok env content stsConfig st cfgTemplate statusList node herr
      obtain ⟨h1, mid, hmid, h2⟩ := ih _ _ _ h
      refine ⟨?_, ?_⟩
      · rw [h1, hr]; simp
      · rw [h2, hr]
        refine ⟨[Event.execute (buildContext env cfgTemplate stsConfig node)] ++
            (applyObjects env st.cluster objects).calls ++
            [Event.goQueryTsyncd
              ((buildContext env cfgTemplate stsConfig node).ServicePrefix ++ "-tsyncd")
              (buildContext env cfgTemplate stsConfig node).TsyncPort] ++
            (if (buildContext env cfgTemplate stsConfig node).EnableGPS = true then
              [Event.goQueryGpsd
                ((buildContext env cfgTemplate stsConfig node).ServicePrefix ++ "-gpsd")
                (buildContext env cfgTemplate stsConfig node).GpsPort]
            else []) ++ mid, ?_, by simp only [List.append_assoc]⟩
        intro ev hev
        simp only [List.mem_append, List.mem_singleton] at hev
        rcases hev with (((h3 | h3) | h3) | h3) | h3
        · subst h3; rfl
        · exact Event.isStatusUpdate_of_isApply (applyObjects_isApply env objects st.cluster ev h3)
        · subst h3; rfl
        · split at h3
          · simp only [List.mem_singleton] at h3; subst h3; rfl
          · cases h3
        · exact hmid ev h3

/-- C9: when a StsConfig is processed without error, the status update that persists it is
the last call of its iteration and the only status update in it; the object carries a
node-status list with exactly one entry per matched node, in node-list order, each with the
node's name, status `"unknown"`, the StsConfig's mode, GPS time `"unknown"` and latitude
and longitude 0, whatever the status held before. -/
theorem C9_status_replaced (env : Env) (content : String) (st : PassState)
    (stsConfig : StsConfig) (nodes : List Node)
    (hl : env.listNodes stsConfig = .ok nodes)
    (hok : (reconcileConfig env content st stsConfig).2 = Flow.next) :
    ∃ mid, (∀ ev ∈ mid, ev.isStatusUpdate = false) ∧
      (reconcileConfig env content st stsConfig).1.trace =
        st.trace ++ mid ++
          [Event.statusUpdate
            { Name := stsConfig.Name, Spec := stsConfig.Spec,
              Status := ⟨nodes.map (fun node =>
                { Name := node.Name,
                  TsyncStatus := { Status := "unknown", Mode := stsConfig.Spec.Mode },
                  GpsStatus := { Time := "unknown", Lon := 0, Lat := 0 } })⟩ }
            none] := by
  unfold reconcileConfig at hok ⊢
  simp only [hl] at hok ⊢
  cases herr : (nodesLoop env content stsConfig
      { st with trace := st.trace ++ [Event.listNodes stsConfig.Name] }
      StsConfigTemplate.zero ⟨[]⟩ nodes).err with
  | some e => simp [herr] at hok
  | none =>
    obtain ⟨h1, mid, hmid, h2⟩ := nodesLoop_ok env content stsConfig nodes _ _ _ herr
    cases hu : env.statusUpdateErr { stsConfig with Status := (nodesLoop env content stsConfig
        { st with trace := st.trace ++ [Event.listNodes stsConfig.Name] }
        StsConfigTemplate.zero ⟨[]⟩ nodes).statusList } with
    | some e => simp [herr, hu] at hok
    | none =>
      simp only [herr, hu]
      refine ⟨Event.listNodes stsConfig.Name :: mid, ?_, ?_⟩
      · intro ev hev
        rcases List.mem_cons.mp hev with h3 | h3
        · subst h3; rfl
        · exact hmid ev h3
      · rw [h2, h1]
        simp [nodeStatusOf]


/-- C9 at a concrete input: two matched nodes, a prior status with a stale entry. -/
theorem C9_status_replaced_witness :
    ∃ mid, (∀ ev ∈ mid, ev.isStatusUpdate = false) ∧
      (reconcileConfig ⟨.ok [], .ok "", fun _ => none,
          fun _ => .ok [⟨"node-a"⟩, ⟨"node-b"⟩], fun _ => "",
          fun _ ctx => .ok ctx.NodeName,
          fun s => .ok ⟨"v1/ConfigMap", "sts", s, "", []⟩,
          fun _ _ _ => none, fun _ _ => none, fun _ _ => none, fun _ => none⟩ "" ⟨[], [], []⟩
        ⟨"cfg", ⟨[], "T-BC-8275.1", []⟩,
          ⟨[⟨"stale", ⟨"Normal", "T-GM.8275.1"⟩, ⟨"12:00", 5, 7⟩⟩]⟩⟩).1.trace =
        [] ++ mid ++
          [Event.statusUpdate
            { Name := "cfg", Spec := ⟨[], "T-BC-8275.1", []⟩,
              Status := ⟨[(⟨"node-a"⟩ : Node), ⟨"node-b"⟩].map (fun node =>
                { Name := node.Name,
                  TsyncStatus := { Status := "unknown", Mode := "T-BC-8275.1" },
                  GpsStatus := { Time := "unknown", Lon := 0, Lat := 0 } })⟩ }
            none] :=
  C9_status_replaced ⟨.ok [], .ok "", fun _ => none,
          fun _ => .ok [⟨"node-a"⟩, ⟨"node-b"⟩], fun _ => "",
          fun _ ctx => .ok ctx.NodeName,
          fun s => .ok ⟨"v1/ConfigMap", "sts", s, "", []⟩,
          fun _ _ _ => none, fun _ _ => none, fun _ _ => none, fun _ => none⟩ "" ⟨[], [], []⟩
        ⟨"cfg", ⟨[], "T-BC-8275.1", []⟩,
          ⟨[⟨"stale", ⟨"Normal", "T-GM.8275.1"⟩, ⟨"12:00", 5, 7⟩⟩]⟩⟩
        [⟨"node-a"⟩, ⟨"node-b"⟩] rfl (by decide)

/-! ## C8: apply order -/

/-- C8 (the code diverges from the claim): one StsConfig matching two nodes, with a template
that renders one object named after the node.  The pass succeeds, yet the apply step is
performed on the object of the first node twice: once in its own iteration and again in the
iteration of the second node, because the slice `objects` is never emptied between
iterations. -/
theorem C8_apply_order_diverges :
    (Reconcile ⟨.ok [⟨"cfg", ⟨[], "T-BC-8275.1", []⟩, ⟨[]⟩⟩], .ok "", fun _ => none,
        fun _ => .ok [⟨"node-a"⟩, ⟨"node-b"⟩], fun _ => "",
        fun _ ctx => .ok ctx.NodeName,
        fun s => .ok ⟨"v1/ConfigMap", "sts", s, "", []⟩,
        fun _ _ _ => none, fun _ _ => none, fun _ _ => none, fun _ => none⟩ []).err = none ∧
    lookups (Reconcile ⟨.ok [⟨"cfg", ⟨[], "T-BC-8275.1", []⟩, ⟨[]⟩⟩], .ok "", fun _ => none,
        fun _ => .ok [⟨"node-a"⟩, ⟨"node-b"⟩], fun _ => "",
        fun _ ctx => .ok ctx.NodeName,
        fun s => .ok ⟨"v1/ConfigMap", "sts", s, "", []⟩,
        fun _ _ _ => none, fun _ _ => none, fun _ _ => none, fun _ => none⟩ []).st.trace =
      [("v1/ConfigMap", ⟨"sts", "node-a"⟩), ("v1/ConfigMap", ⟨"sts", "node-a"⟩),
        ("v1/ConfigMap", ⟨"sts", "node-b"⟩)] ∧
    lookups (Reconcile ⟨.ok [⟨"cfg", ⟨[], "T-BC-8275.1", []⟩, ⟨[]⟩⟩], .ok "", fun _ => none,
        fun _ => .ok [⟨"node-a"⟩, ⟨"node-b"⟩], fun _ => "",
        fun _ ctx => .ok ctx.NodeName,
        fun s => .ok ⟨"v1/ConfigMap", "sts", s, "", []⟩,
        fun _ _ _ => none, fun _ _ => none, fun _ _ => none, fun _ => none⟩ []).st.trace ≠
      [("v1/ConfigMap", ⟨"sts", "node-a"⟩), ("v1/ConfigMap", ⟨"sts", "node-b"⟩)] := by
  refine ⟨by decide, by decide, by decide⟩


/-! ## C6: idempotence of the apply step -/

theorem Obj.matches_iff (g : String) (k : ObjectKey) (o : Obj) :
    Obj.matches g k o = true ↔ o.ident = (g, k) := by
  cases o with
  | mk og ons oname orv ofs =>
    cases k with
    | mk kns kname =>
      simp [Obj.matches, Obj.ident, ObjectKeyFromObject, and_assoc]

theorem Obj.matches_self (o : Obj) : Obj.matches o.GVK (ObjectKeyFromObject o) o = true :=
  (Obj.matches_iff _ _ o).mpr rfl

theorem Obj.ident_SetResourceVersion (o : Obj) (v : String) :
    (o.SetResourceVersion v).ident = o.ident := rfl

theorem clusterGet_create_self (cluster : List Obj) (obj : Obj)
    (h : clusterGet cluster obj.GVK (ObjectKeyFromObject obj) = none) :
    clusterGet (clusterCreate cluster obj) obj.GVK (ObjectKeyFromObject obj) = some obj := by
  unfold clusterGet clusterCreate at *
  rw [List.find?_append, h]
  simp [List.find?, Obj.matches_self]

theorem clusterGet_create_other (cluster : List Obj) (obj : Obj) (g : String) (k : ObjectKey)
    (h : obj.ident ≠ (g, k)) :
    clusterGet (clusterCreate cluster obj) g k = clusterGet cluster g k := by
  unfold clusterGet clusterCreate
  rw [List.find?_append]
  have hm : Obj.matches g k obj = false := by
    rw [← Bool.not_eq_true, Obj.matches_iff]; exact h
  simp [List.find?, hm]

theorem clusterGet_update_self (obj : Obj) (cluster : List Obj) :
    ∀ old, clusterGet cluster obj.GVK (ObjectKeyFromObject obj) = some old →
      clusterGet (clusterUpdate cluster obj) obj.GVK (ObjectKeyFromObject obj) = some obj := by
  induction cluster with
  | nil => intro old h; simp [clusterGet] at h
  | cons o rest ih =>
    intro old h
    unfold clusterGet clusterUpdate at *
    rw [List.map_cons]
    by_cases hm : Obj.matches obj.GVK (ObjectKeyFromObject obj) o = true
    · rw [if_pos hm, List.find?_cons_of_pos _ (Obj.matches_self obj)]
    · rw [if_neg hm, List.find?_cons_of_neg _ hm]
      rw [List.find?_cons_of_neg _ hm] at h
      exact ih old h

theorem clusterGet_update_other (obj : Obj) (g : String) (k : ObjectKey)
    (h : obj.ident ≠ (g, k)) (cluster : List Obj) :
    clusterGet (clusterUpdate cluster obj) g k = clusterGet cluster g k := by
  have hobj : ¬ Obj.matches g k obj = true := by
    rw [Obj.matches_iff]; exact h
  induction cluster with
  | nil => rfl
  | cons o rest ih =>
    unfold clusterGet clusterUpdate at *
    rw [List.map_cons]
    by_cases hm : Obj.matches obj.GVK (ObjectKeyFromObject obj) o = true
    · have ho : ¬ Obj.matches g k o = true := by
        rw [Obj.matches_iff]
        rw [Obj.matches_iff] at hm
        rw [hm]; exact h
      rw [if_pos hm, List.find?_cons_of_neg _ hobj, List.find?_cons_of_neg _ ho]
      exact ih
    · rw [if_neg hm]
      by_cases hgo : Obj.matches g k o = true
      · rw [List.find?_cons_of_pos _ hgo, List.find?_cons_of_pos _ hgo]
      · rw [List.find?_cons_of_neg _ hgo, List.find?_cons_of_neg _ hgo]
        exact ih

theorem DeepDerivative_refl (o : Obj) : DeepDerivative o o = true := by
  simp [DeepDerivative]

theorem DeepDerivative_SetResourceVersion (o : Obj) (v : String) (h : o.ResourceVersion = "") :
    DeepDerivative o (o.SetResourceVersion v) = true := by
  simp [DeepDerivative, Obj.SetResourceVersion, h]

theorem applyObject_of_found (env : Env) (cluster : List Obj) (obj s : Obj)
    (hget : ∀ (cl : List Obj) (g : String) (k : ObjectKey), env.getErr cl g k = none)
    (hg : clusterGet cluster obj.GVK (ObjectKeyFromObject obj) = some s)
    (hd : DeepDerivative obj s = true) :
    applyObject env cluster obj = ⟨[obj.lookup], cluster, obj, none⟩ := by
  rcases applyObject_cases_reliable env cluster obj (hget _ _ _) with ⟨hg', _, _⟩ | ⟨e, hg', _, _⟩ |
    ⟨old, hg', _, h⟩ | ⟨old, hg', hd', _, _⟩ | ⟨old, e, hg', hd', _, _⟩
  · rw [hg] at hg'; cases hg'
  · rw [hg] at hg'; cases hg'
  · exact h
  · rw [hg] at hg'; cases hg'; rw [hd] at hd'; cases hd'
  · rw [hg] at hg'; cases hg'; rw [hd] at hd'; cases hd'

theorem applyObjects_of_converged (env : Env) (cluster : List Obj) (objs : List Obj)
    (hget : ∀ (cl : List Obj) (g : String) (k : ObjectKey), env.getErr cl g k = none)
    (h : Converged cluster objs) :
    applyObjects env cluster objs = ⟨objs.map Obj.lookup, cluster, objs, none⟩ := by
  induction objs with
  | nil => rfl
  | cons obj rest ih =>
    obtain ⟨s, hg, hd⟩ := h obj (List.mem_cons_self _ _)
    have hrest : Converged cluster rest := fun o ho => h o (List.mem_cons_of_mem _ ho)
    simp only [applyObjects, applyObject_of_found env cluster obj s hget hg hd, ih hrest,
      List.map_cons, List.singleton_append]

theorem applyObject_settles (env : Env) (cluster : List Obj) (obj : Obj)
    (hget : ∀ (cl : List Obj) (g : String) (k : ObjectKey), env.getErr cl g k = none)
    (h : (applyObject env cluster obj).err = none) :
    (applyObject env cluster obj).obj.ident = obj.ident ∧
    ∃ s, clusterGet (applyObject env cluster obj).cluster obj.GVK (ObjectKeyFromObject obj)
        = some s ∧
      DeepDerivative (applyObject env cluster obj).obj s = true ∧
      (obj.ResourceVersion = "" → DeepDerivative obj s = true) ∧
      (DeepDerivative obj s = true ∨ s = obj.SetResourceVersion s.ResourceVersion) := by
  rcases applyObject_cases_reliable env cluster obj (hget _ _ _) with ⟨hg, _, hr⟩ | ⟨e, hg, _, hr⟩ |
    ⟨old, hg, hd, hr⟩ | ⟨old, hg, hd, _, hr⟩ | ⟨old, e, hg, hd, _, hr⟩
  · rw [hr]
    exact ⟨rfl, obj, clusterGet_create_self cluster obj hg, DeepDerivative_refl obj,
      fun _ => DeepDerivative_refl obj, Or.inl (DeepDerivative_refl obj)⟩
  · rw [hr] at h; cases h
  · rw [hr]
    exact ⟨rfl, old, hg, hd, fun _ => hd, Or.inl hd⟩
  · rw [hr]
    refine ⟨rfl, obj.SetResourceVersion old.ResourceVersion, ?_, DeepDerivative_refl _,
      fun hrv => DeepDerivative_SetResourceVersion obj _ hrv, Or.inr rfl⟩
    exact clusterGet_update_self (obj.SetResourceVersion old.ResourceVersion) cluster old hg
  · rw [hr] at h; cases h

theorem applyObject_other (env : Env) (cluster : List Obj) (obj : Obj) (g : String)
    (k : ObjectKey) (h : obj.ident ≠ (g, k)) :
    clusterGet (applyObject env cluster obj).cluster g k = clusterGet cluster g k := by
  rcases applyObject_cases env cluster obj with ⟨_, _, _, hr⟩ | ⟨_, e, _, _, hr⟩ |
    ⟨old, _, _, hr⟩ | ⟨old, _, _, _, hr⟩ | ⟨old, e, _, _, _, hr⟩ <;> rw [hr]
  · exact clusterGet_create_other cluster obj g k h
  · exact clusterGet_update_other (obj.SetResourceVersion old.ResourceVersion) g k h cluster

theorem applyObjects_other (env : Env) (objs : List Obj) (g : String) (k : ObjectKey) :
    ∀ cluster : List Obj, (g, k) ∉ objs.map Obj.ident →
      clusterGet (applyObjects env cluster objs).cluster g k = clusterGet cluster g k := by
  induction objs with
  | nil => intro cluster _; rfl
  | cons obj rest ih =>
    intro cluster hnot
    simp only [List.map_cons, List.mem_cons, not_or] at hnot
    have h1 := applyObject_other env cluster obj g k (fun hh => hnot.1 hh.symm)
    cases herr : (applyObject env cluster obj).err with
    | some e => simpa only [applyObjects, herr] using h1
    | none =>
      simp only [applyObjects, herr]
      rw [ih _ hnot.2, h1]

theorem applyObject_keeps (env : Env) (cluster : List Obj) (obj s o : Obj)
    (hget : ∀ (cl : List Obj) (g : String) (k : ObjectKey), env.getErr cl g k = none)
    (ho : o.ident = obj.ident → o = obj)
    (hg : clusterGet cluster obj.GVK (ObjectKeyFromObject obj) = some s)
    (hs : DeepDerivative obj s = true ∨ s = obj.SetResourceVersion s.ResourceVersion) :
    clusterGet (applyObject env cluster o).cluster obj.GVK (ObjectKeyFromObject obj) = some s := by
  by_cases hid : o.ident = obj.ident
  · have hoo := ho hid
    subst hoo
    rcases applyObject_cases_reliable env cluster o (hget _ _ _) with ⟨hg', _, _⟩ | ⟨e, hg', _, _⟩ |
      ⟨old, hg', _, hr⟩ | ⟨old, hg', hd', _, hr⟩ | ⟨old, e, hg', hd', _, hr⟩
    · rw [hg] at hg'; cases hg'
    · rw [hg] at hg'; cases hg'
    · rw [hr]; exact hg
    · rw [hg] at hg'; cases hg'
      rw [hr]
      rcases hs with hs | hs
      · rw [hs] at hd'; cases hd'
      · have := clusterGet_update_self (o.SetResourceVersion s.ResourceVersion) cluster s hg
        exact this.trans (congrArg some hs.symm)
    · rw [hr]; exact hg
  · rw [applyObject_other env cluster o obj.GVK (ObjectKeyFromObject obj) hid]
    exact hg

theorem applyObjects_keeps (env : Env) (obj s : Obj)
    (hget : ∀ (cl : List Obj) (g : String) (k : ObjectKey), env.getErr cl g k = none)
    (hs : DeepDerivative obj s = true ∨ s = obj.SetResourceVersion s.ResourceVersion)
    (rest : List Obj) :
    ∀ cluster : List Obj, (∀ o ∈ rest, o.ident = obj.ident → o = obj) →
      clusterGet cluster obj.GVK (ObjectKeyFromObject obj) = some s →
      clusterGet (applyObjects env cluster rest).cluster obj.GVK (ObjectKeyFromObject obj)
        = some s := by
  induction rest with
  | nil => intro cluster _ hg; exact hg
  | cons o rest ih =>
    intro cluster ho hg
    have h1 := applyObject_keeps env cluster obj s o hget (ho o (List.mem_cons_self _ _)) hg hs
    cases herr : (applyObject env cluster o).err with
    | some e => simpa only [applyObjects, herr] using h1
    | none =>
      simp only [applyObjects, herr]
      exact ih _ (fun o' ho' => ho o' (List.mem_cons_of_mem _ ho')) h1

theorem applyObjects_converges (env : Env) (objs : List Obj)
    (hget : ∀ (cl : List Obj) (g : String) (k : ObjectKey), env.getErr cl g k = none) :
    ∀ cluster : List Obj, IdentDeterminesObject objs →
      (applyObjects env cluster objs).err = none →
      Converged (applyObjects env cluster objs).cluster (applyObjects env cluster objs).objects ∧
      ((∀ o ∈ objs, o.ResourceVersion = "") →
        Converged (applyObjects env cluster objs).cluster objs) := by
  induction objs with
  | nil =>
    intro cluster _ _
    exact ⟨fun o ho => by simp [applyObjects] at ho, fun _ o ho => by cases ho⟩
  | cons obj rest ih =>
    intro cluster hnd hok
    have hrest : IdentDeterminesObject rest := fun o1 h1 o2 h2 =>
      hnd o1 (List.mem_cons_of_mem _ h1) o2 (List.mem_cons_of_mem _ h2)
    cases herr : (applyObject env cluster obj).err with
    | some e => simp [applyObjects, herr] at hok
    | none =>
      simp only [applyObjects, herr] at hok ⊢
      obtain ⟨hid, s, hs, hd1, hd2, hd3⟩ := applyObject_settles env cluster obj hget herr
      obtain ⟨ih1, ih2⟩ := ih (applyObject env cluster obj).cluster hrest hok
      have hkeep : clusterGet
          (applyObjects env (applyObject env cluster obj).cluster rest).cluster
          obj.GVK (ObjectKeyFromObject obj) = some s :=
        applyObjects_keeps env obj s hget hd3 rest _
          (fun o ho hio => hnd o (List.mem_cons_of_mem _ ho) obj (List.mem_cons_self _ _) hio)
          hs
      refine ⟨?_, ?_⟩
      · intro o ho
        rcases List.mem_cons.mp ho with h1 | h1
        · subst h1
          have hid' := hid
          simp only [Obj.ident, Prod.mk.injEq] at hid'
          rw [hid'.1, hid'.2]
          exact ⟨s, hkeep, hd1⟩
        · exact ih1 o h1
      · intro hrv o ho
        rcases List.mem_cons.mp ho with h1 | h1
        · subst h1
          exact ⟨s, hkeep, hd2 (hrv _ (List.mem_cons_self _ _))⟩
        · exact ih2 (fun o' ho' => hrv o' (List.mem_cons_of_mem _ ho')) o h1

/-- C6, as amended: when rendered objects that share kind and namespace/name are the same
object, and one run of the apply step succeeded against a cluster that stores objects as
submitted and answers every lookup from what is stored, a second run on the same objects, as the first run left them, looks every object
up and issues no create and no update, and leaves the cluster as it is; the same holds for
a second run on the objects as rendered when they carry no resource version of their own.
The derivative-equal comparison is reflexive. -/
theorem C6_idempotent_apply (env : Env) (cluster : List Obj) (objs : List Obj)
    (hget : ∀ (cl : List Obj) (g : String) (k : ObjectKey), env.getErr cl g k = none)
    (hkeys : IdentDeterminesObject objs)
    (hok : (applyObjects env cluster objs).err = none) :
    applyObjects env (applyObjects env cluster objs).cluster
        (applyObjects env cluster objs).objects =
      ⟨(applyObjects env cluster objs).objects.map Obj.lookup,
        (applyObjects env cluster objs).cluster, (applyObjects env cluster objs).objects, none⟩ ∧
    ((∀ o ∈ objs, o.ResourceVersion = "") →
      applyObjects env (applyObjects env cluster objs).cluster objs =
        ⟨objs.map Obj.lookup, (applyObjects env cluster objs).cluster, objs, none⟩) ∧
    (∀ o : Obj, DeepDerivative o o = true) := by
  obtain ⟨h1, h2⟩ := applyObjects_converges env objs hget cluster hkeys hok
  exact ⟨applyObjects_of_converged env _ _ hget h1,
    fun hrv => applyObjects_of_converged env _ _ hget (h2 hrv), DeepDerivative_refl⟩

/-- C6 as amended, at a concrete input: the cluster holds an older version of the first
object and nothing of the second; after one run the second run only looks both up. -/
theorem C6_idempotent_apply_witness :
    applyObjects ⟨.ok [], .ok "", fun _ => none, fun _ => .ok [], fun _ => "",
        fun _ _ => .ok "", fun _ => .error .notFound, fun _ _ _ => none, fun _ _ => none, fun _ _ => none,
        fun _ => none⟩
      [⟨"v1/ConfigMap", "sts", "a", "7", [("data", "2")]⟩,
        ⟨"v1/Service", "sts", "b", "", [("port", "50051")]⟩]
      [⟨"v1/ConfigMap", "sts", "a", "7", [("data", "2")]⟩,
        ⟨"v1/Service", "sts", "b", "", [("port", "50051")]⟩] =
    ⟨[.get "v1/ConfigMap" ⟨"sts", "a"⟩, .get "v1/Service" ⟨"sts", "b"⟩],
      [⟨"v1/ConfigMap", "sts", "a", "7", [("data", "2")]⟩,
        ⟨"v1/Service", "sts", "b", "", [("port", "50051")]⟩],
      [⟨"v1/ConfigMap", "sts", "a", "7", [("data", "2")]⟩,
        ⟨"v1/Service", "sts", "b", "", [("port", "50051")]⟩], none⟩ :=
  (C6_idempotent_apply ⟨.ok [], .ok "", fun _ => none, fun _ => .ok [],
        fun _ => "", fun _ _ => .ok "", fun _ => .error .notFound, fun _ _ _ => none, fun _ _ => none,
        fun _ _ => none, fun _ => none⟩
      [⟨"v1/ConfigMap", "sts", "a", "7", [("data", "1")]⟩]
      [⟨"v1/ConfigMap", "sts", "a", "", [("data", "2")]⟩,
        ⟨"v1/Service", "sts", "b", "", [("port", "50051")]⟩]
      (fun _ _ _ => rfl)
      (by
        intro o1 h1 o2 h2 hid
        simp only [List.mem_cons, List.mem_singleton, List.not_mem_nil, or_false] at h1 h2
        rcases h1 with rfl | rfl <;> rcases h2 with rfl | rfl
        · rfl
        · exact absurd hid (by decide)
        · exact absurd hid (by decide)
        · rfl)
      (by decide)).1

/-- C6 as stated fails: two rendered objects of the same kind and name with different
content, applied to an empty cluster that accepts every write, stores what is submitted and
answers every lookup from it.  The first run succeeds (create, then update) and leaves the
objects as rendered; the second run on the same objects issues two updates.  A rendered
object that carries a resource version of its own fails too when it is applied again as
rendered: against a stored object of version 7, the object rendered with version 5 is
updated on the first run and again on the second. -/
theorem C6_idempotence_counterexample :
    (applyObjects ⟨.ok [], .ok "", fun _ => none, fun _ => .ok [], fun _ => "",
        fun _ _ => .ok "", fun _ => .error .notFound, fun _ _ _ => none, fun _ _ => none, fun _ _ => none,
        fun _ => none⟩ []
      [⟨"v1/ConfigMap", "sts", "a", "", [("data", "1")]⟩,
        ⟨"v1/ConfigMap", "sts", "a", "", [("data", "2")]⟩]).err = none ∧
    (applyObjects ⟨.ok [], .ok "", fun _ => none, fun _ => .ok [], fun _ => "",
        fun _ _ => .ok "", fun _ => .error .notFound, fun _ _ _ => none, fun _ _ => none, fun _ _ => none,
        fun _ => none⟩ []
      [⟨"v1/ConfigMap", "sts", "a", "", [("data", "1")]⟩,
        ⟨"v1/ConfigMap", "sts", "a", "", [("data", "2")]⟩]).objects =
      [⟨"v1/ConfigMap", "sts", "a", "", [("data", "1")]⟩,
        ⟨"v1/ConfigMap", "sts", "a", "", [("data", "2")]⟩] ∧
    (applyObjects ⟨.ok [], .ok "", fun _ => none, fun _ => .ok [], fun _ => "",
        fun _ _ => .ok "", fun _ => .error .notFound, fun _ _ _ => none, fun _ _ => none, fun _ _ => none,
        fun _ => none⟩
      (applyObjects ⟨.ok [], .ok "", fun _ => none, fun _ => .ok [], fun _ => "",
          fun _ _ => .ok "", fun _ => .error .notFound, fun _ _ _ => none, fun _ _ => none, fun _ _ => none,
          fun _ => none⟩ []
        [⟨"v1/ConfigMap", "sts", "a", "", [("data", "1")]⟩,
          ⟨"v1/ConfigMap", "sts", "a", "", [("data", "2")]⟩]).cluster
      [⟨"v1/ConfigMap", "sts", "a", "", [("data", "1")]⟩,
        ⟨"v1/ConfigMap", "sts", "a", "", [("data", "2")]⟩]).calls =
      [.get "v1/ConfigMap" ⟨"sts", "a"⟩,
        .update ⟨"v1/ConfigMap", "sts", "a", "", [("data", "1")]⟩ none,
        .get "v1/ConfigMap" ⟨"sts", "a"⟩,
        .update ⟨"v1/ConfigMap", "sts", "a", "", [("data", "2")]⟩ none] ∧
    (applyObjects ⟨.ok [], .ok "", fun _ => none, fun _ => .ok [], fun _ => "",
        fun _ _ => .ok "", fun _ => .error .notFound, fun _ _ _ => none, fun _ _ => none,
        fun _ _ => none, fun _ => none⟩
      [⟨"v1/ConfigMap", "sts", "a", "7", [("data", "1")]⟩]
      [⟨"v1/ConfigMap", "sts", "a", "5", [("data", "2")]⟩]) =
      ⟨[.get "v1/ConfigMap" ⟨"sts", "a"⟩,
          .update ⟨"v1/ConfigMap", "sts", "a", "7", [("data", "2")]⟩ none],
        [⟨"v1/ConfigMap", "sts", "a", "7", [("data", "2")]⟩],
        [⟨"v1/ConfigMap", "sts", "a", "7", [("data", "2")]⟩], none⟩ ∧
    (applyObjects ⟨.ok [], .ok "", fun _ => none, fun _ => .ok [], fun _ => "",
        fun _ _ => .ok "", fun _ => .error .notFound, fun _ _ _ => none, fun _ _ => none,
        fun _ _ => none, fun _ => none⟩
      [⟨"v1/ConfigMap", "sts", "a", "7", [("data", "2")]⟩]
      [⟨"v1/ConfigMap", "sts", "a", "5", [("data", "2")]⟩]).calls =
      [.get "v1/ConfigMap" ⟨"sts", "a"⟩,
        .update ⟨"v1/ConfigMap", "sts", "a", "7", [("data", "2")]⟩ none] := by
  refine ⟨by decide, by decide, by decide, by decide, by decide⟩

end StsOperator
